import Mathlib

/-!
Verification of the tic-tac-toe game engine of `Automation/tic-tac-toe`
(`robot_tictactoe.py`, `tictactoe.py`).

The board is the Python list `self.board`: nine cells holding
`0` (empty), `1` (human) or `2` (computer).  Pure functions of the source
become Lean functions; the recursive `minimax` is given an explicit fuel
argument bounding the recursion depth (the Python recursion depth is bounded
by the number of empty cells, which never exceeds 9, so fuel 9 is always
enough and the fuel-exhausted branch is dead code).  Python's
`float('inf')` / `-float('inf')` initial scores are modelled by integer
sentinels larger in magnitude than every attainable score.
-/

namespace TicTacToe

abbrev Board := List Nat

def human : Nat := 1

def computer : Nat := 2

def winning_combos : List (List Nat) :=
  [[0, 1, 2], [3, 4, 5], [6, 7, 8],
   [0, 3, 6], [1, 4, 7], [2, 5, 8],
   [0, 4, 8], [2, 4, 6]]

/-- `is_winner`: the given player occupies all three cells of some line. -/
def is_winner (b : Board) (player : Nat) : Bool :=
  winning_combos.any (fun combo => combo.all (fun i => b.getD i 0 == player))

/-- `is_board_full`: no cell is empty. -/
def is_board_full (b : Board) : Bool :=
  b.all (fun cell => cell != 0)

/-- `get_available_moves`: indices of empty cells, ascending. -/
def get_available_moves (b : Board) : List Nat :=
  (List.range 9).filter (fun i => b.getD i 0 == 0)

/-- `evaluate`: board score for minimax. -/
def evaluate (b : Board) : Int :=
  if is_winner b computer then 10
  else if is_winner b human then -10
  else 0

/-- Sentinel below every attainable score, modelling `-float('inf')`. -/
def negInf : Int := -1000000

/-- Sentinel above every attainable score, modelling `float('inf')`. -/
def posInf : Int := 1000000

/-- `minimax(depth, is_maximizing)`, with explicit fuel (first argument). -/
def minimax : Nat → Board → Nat → Bool → Int
  | fuel, b, depth, is_maximizing =>
    let score := evaluate b
    if score = 10 then score - depth
    else if score = -10 then score + depth
    else if is_board_full b then 0
    else
      match fuel with
      | 0 => 0
      | fuel' + 1 =>
        if is_maximizing then
          (get_available_moves b).foldl
            (fun best_score move =>
              max (minimax fuel' (b.set move computer) (depth + 1) false) best_score)
            negInf
        else
          (get_available_moves b).foldl
            (fun best_score move =>
              min (minimax fuel' (b.set move human) (depth + 1) true) best_score)
            posInf

/-- `get_best_move`: fold over available moves keeping the strictly best score. -/
def get_best_move (b : Board) : Option Nat :=
  ((get_available_moves b).foldl
    (fun acc move =>
      let score := minimax 9 (b.set move computer) 0 false
      if score > acc.1 then (score, some move) else acc)
    (negInf, (none : Option Nat))).2

/-- Number of empty cells (length of `get_available_moves`). -/
def empties (b : Board) : Nat := (get_available_moves b).length

/-!
State-passing translation of the same `minimax`, making the Python
`self.board[move] = player; ...; self.board[move] = 0` mutation explicit:
the board is threaded through the fold exactly as the shared `self.board`
is mutated, and returned alongside the score.
-/

/-- `minimax` with the shared mutable board made explicit. -/
def minimaxS : Nat → Board → Nat → Bool → Int × Board
  | fuel, b, depth, is_maximizing =>
    let score := evaluate b
    if score = 10 then (score - depth, b)
    else if score = -10 then (score + depth, b)
    else if is_board_full b then (0, b)
    else
      match fuel with
      | 0 => (0, b)
      | fuel' + 1 =>
        if is_maximizing then
          (get_available_moves b).foldl
            (fun acc move =>
              let board := acc.2.set move computer
              let r := minimaxS fuel' board (depth + 1) false
              let board := r.2.set move 0
              (max r.1 acc.1, board))
            (negInf, b)
        else
          (get_available_moves b).foldl
            (fun acc move =>
              let board := acc.2.set move human
              let r := minimaxS fuel' board (depth + 1) true
              let board := r.2.set move 0
              (min r.1 acc.1, board))
            (posInf, b)

/-- `get_best_move` with the shared mutable board made explicit. -/
def get_best_moveS (b : Board) : Option Nat × Board :=
  let r :=
    (get_available_moves b).foldl
      (fun acc move =>
        let board := acc.2.2.set move computer
        let r := minimaxS 9 board 0 false
        let board := r.2.set move 0
        if r.1 > acc.1 then (r.1, some move, board) else (acc.1, acc.2.1, board))
      (negInf, (none : Option Nat), b)
  (r.2.1, r.2.2)

/-!  The game controller (`RobotTicTacToe`): board, episode queue and move log. -/

/-- Mutable state of one `RobotTicTacToe` instance. -/
structure GameState where
  board : Board
  episode_queue : List Nat
  computer_moves : List (Nat × Nat)
deriving DecidableEq

/-- `__init__`: empty board, episode pool `[0,1,2,3]`, empty move log. -/
def initial_state : GameState :=
  { board := List.replicate 9 0
    episode_queue := [0, 1, 2, 3]
    computer_moves := [] }

def initial_board : Board := List.replicate 9 0

/-- The `if not self.episode_queue` guard plus `popleft()` of `computer_move`. -/
def allocate : List Nat → Option Nat × List Nat
  | [] => (none, [])
  | e :: rest => (some e, rest)

/-- `computer_move`: `replay_success` is the result of the external
`replay_episode` call (robot/dataset collaborator, out of scope here).
The `get_best_move = none` branch is unreachable: it is guarded by the
`available` check. -/
def computer_move (replay_success : Bool) (s : GameState) : GameState × Bool :=
  if get_available_moves s.board = [] then (s, false)
  else
    match allocate s.episode_queue with
    | (none, _) => (s, false)
    | (some episode_idx, rest) =>
      match get_best_move s.board with
      | none => (s, false)
      | some move =>
        let _ := replay_success
        ({ board := s.board.set move computer
           episode_queue := rest
           computer_moves := s.computer_moves ++ [(move, episode_idx)] },
         true)

/-- `player_move`: each list entry is one console line, `none` when `int()`
raises `ValueError`, `some n` for the parsed number; the loop re-prompts on
every rejected entry.  Returns the updated board and the accepted position,
or `none` when the input list runs out. -/
def player_move : Board → List (Option Int) → Option (Board × Nat)
  | _, [] => none
  | b, none :: rest => player_move b rest
  | b, some n :: rest =>
    let move : Int := n - 1
    if 0 ≤ move ∧ move ≤ 8 ∧ b.getD move.toNat 0 == 0 then
      some (b.set move.toNat human, move.toNat)
    else
      player_move b rest

/-- Game outcomes of the `play` loop. -/
inductive Outcome
  | InProgress
  | HumanWins
  | ComputerWins
  | Draw
deriving DecidableEq

/-- Win/draw classification of a board. -/
def game_status (b : Board) : Outcome :=
  if is_winner b human then .HumanWins
  else if is_winner b computer then .ComputerWins
  else if is_board_full b then .Draw
  else .InProgress

/-- One `play` loop on the bare board, the computer always answering with
`get_best_move`.  The human's console entries are positions (already 0-based);
an illegal entry is skipped, mirroring the re-prompt.  A run ends when the
entries run out or a terminal state is reached. -/
def play_from : Board → List Nat → Outcome
  | b, [] => game_status b
  | b, m :: ms =>
    if m < 9 ∧ b.getD m 0 == 0 then
      let b1 := b.set m human
      if is_winner b1 human then .HumanWins
      else if is_board_full b1 then .Draw
      else
        match get_best_move b1 with
        | none => .InProgress
        | some c =>
          let b2 := b1.set c computer
          if is_winner b2 computer then .ComputerWins
          else if is_board_full b2 then .Draw
          else play_from b2 ms
    else play_from b ms

/-- States reachable from `initial_state` through human and computer moves. -/
inductive Reachable : GameState → Prop
  | init : Reachable initial_state
  | human_step (s : GameState) (inputs : List (Option Int)) (b' : Board) (p : Nat) :
      Reachable s → player_move s.board inputs = some (b', p) →
      Reachable { s with board := b' }
  | computer_step (s : GameState) (r : Bool) :
      Reachable s → Reachable (computer_move r s).1

/-- Base-3 encoding of a board, the key of the certificate table. -/
def encode (b : Board) : Nat := b.foldr (fun c acc => 3 * acc + c) 0

/-- Certificate lookup: binary decision tree over the sorted keys of the
strategy certificate (each key is a base-3 packed computer-to-move board, the
value a reply for that board).  Soundness never relies on how this table was
built: `certOK`/`certOKN` re-check legality of every reply they use. -/
def certLookup (k : Nat) : Option Nat :=
  if k < 5954 then
    if k < 2194 then
      if k < 845 then
        if k < 311 then
          if k < 172 then
            if k < 38 then
              if k < 14 then
                if k < 3 then
                  if k == 1 then some 4 else none
                else
                  if k < 9 then
                    if k == 3 then some 0 else none
                  else
                    if k == 9 then some 4 else none
              else
                if k < 27 then
                  if k == 14 then some 3 else none
                else
                  if k < 32 then
                    if k == 27 then some 0 else none
                  else
                    if k == 32 then some 4 else none
            else
              if k < 92 then
                if k < 81 then
                  if k == 38 then some 4 else none
                else
                  if k < 86 then
                    if k == 81 then some 0 else none
                  else
                    if k == 86 then some 7 else none
              else
                if k < 149 then
                  if k < 110 then
                    if k == 92 then some 6 else none
                  else
                    if k == 110 then some 5 else none
                else
                  if k < 166 then
                    if k == 149 then some 6 else none
                  else
                    if k == 166 then some 2 else none
          else
            if k < 211 then
              if k < 198 then
                if k < 174 then
                  if k == 172 then some 1 else none
                else
                  if k < 190 then
                    if k == 174 then some 0 else none
                  else
                    if k == 190 then some 6 else none
              else
                if k < 203 then
                  if k == 198 then some 0 else none
                else
                  if k < 205 then
                    if k == 203 then some 8 else none
                  else
                    if k == 205 then some 7 else none
            else
              if k < 262 then
                if k < 243 then
                  if k == 211 then some 6 else none
                else
                  if k < 248 then
                    if k == 243 then some 2 else none
                  else
                    if k == 248 then some 6 else none
              else
                if k < 272 then
                  if k < 264 then
                    if k == 262 then some 3 else none
                  else
                    if k == 264 then some 3 else none
                else
                  if k < 288 then
                    if k == 272 then some 4 else none
                  else
                    if k == 288 then some 4 else none
        else
          if k < 437 then
            if k < 397 then
              if k < 342 then
                if k < 319 then
                  if k == 311 then some 6 else none
                else
                  if k < 326 then
                    if k == 319 then some 4 else none
                  else
                    if k == 326 then some 3 else none
              else
                if k < 383 then
                  if k == 342 then some 3 else none
                else
                  if k < 389 then
                    if k == 383 then some 6 else none
                  else
                    if k == 389 then some 6 else none
            else
              if k < 414 then
                if k < 399 then
                  if k == 397 then some 8 else none
                else
                  if k < 406 then
                    if k == 399 then some 7 else none
                  else
                    if k == 406 then some 1 else none
              else
                if k < 421 then
                  if k < 419 then
                    if k == 414 then some 8 else none
                  else
                    if k == 419 then some 8 else none
                else
                  if k < 427 then
                    if k == 421 then some 7 else none
                  else
                    if k == 427 then some 6 else none
          else
            if k < 729 then
              if k < 451 then
                if k < 439 then
                  if k == 437 then some 8 else none
                else
                  if k < 443 then
                    if k == 439 then some 7 else none
                  else
                    if k == 443 then some 8 else none
              else
                if k < 599 then
                  if k < 453 then
                    if k == 451 then some 6 else none
                  else
                    if k == 453 then some 6 else none
                else
                  if k < 605 then
                    if k == 599 then some 7 else none
                  else
                    if k == 605 then some 6 else none
            else
              if k < 773 then
                if k < 734 then
                  if k == 729 then some 4 else none
                else
                  if k < 758 then
                    if k == 734 then some 4 else none
                  else
                    if k == 758 then some 1 else none
              else
                if k < 812 then
                  if k < 797 then
                    if k == 773 then some 4 else none
                  else
                    if k == 797 then some 4 else none
                else
                  if k < 833 then
                    if k == 812 then some 2 else none
                  else
                    if k == 833 then some 7 else none
      else
        if k < 1141 then
          if k < 955 then
            if k < 907 then
              if k < 894 then
                if k < 857 then
                  if k == 845 then some 2 else none
                else
                  if k < 892 then
                    if k == 857 then some 1 else none
                  else
                    if k == 892 then some 3 else none
              else
                if k < 900 then
                  if k == 894 then some 0 else none
                else
                  if k < 905 then
                    if k == 900 then some 1 else none
                  else
                    if k == 905 then some 8 else none
            else
              if k < 923 then
                if k < 913 then
                  if k == 907 then some 7 else none
                else
                  if k < 918 then
                    if k == 913 then some 3 else none
                  else
                    if k == 918 then some 0 else none
              else
                if k < 933 then
                  if k < 929 then
                    if k == 923 then some 8 else none
                  else
                    if k == 929 then some 8 else none
                else
                  if k < 949 then
                    if k == 933 then some 7 else none
                  else
                    if k == 949 then some 5 else none
          else
            if k < 1047 then
              if k < 1007 then
                if k < 990 then
                  if k == 955 then some 5 else none
                else
                  if k < 995 then
                    if k == 990 then some 0 else none
                  else
                    if k == 995 then some 4 else none
              else
                if k < 1019 then
                  if k == 1007 then some 2 else none
                else
                  if k < 1045 then
                    if k == 1019 then some 1 else none
                  else
                    if k == 1045 then some 4 else none
            else
              if k < 1125 then
                if k < 1073 then
                  if k == 1047 then some 4 else none
                else
                  if k < 1109 then
                    if k == 1073 then some 1 else none
                  else
                    if k == 1109 then some 2 else none
              else
                if k < 1134 then
                  if k < 1130 then
                    if k == 1125 then some 0 else none
                  else
                    if k == 1130 then some 7 else none
                else
                  if k < 1139 then
                    if k == 1134 then some 1 else none
                  else
                    if k == 1139 then some 8 else none
        else
          if k < 1553 then
            if k < 1184 then
              if k < 1167 then
                if k < 1149 then
                  if k == 1141 then some 7 else none
                else
                  if k < 1163 then
                    if k == 1149 then some 7 else none
                  else
                    if k == 1163 then some 8 else none
              else
                if k < 1178 then
                  if k == 1167 then some 7 else none
                else
                  if k < 1179 then
                    if k == 1178 then some 7 else none
                  else
                    if k == 1179 then some 0 else none
            else
              if k < 1204 then
                if k < 1189 then
                  if k == 1184 then some 8 else none
                else
                  if k < 1202 then
                    if k == 1189 then some 1 else none
                  else
                    if k == 1202 then some 8 else none
              else
                if k < 1325 then
                  if k < 1210 then
                    if k == 1204 then some 7 else none
                  else
                    if k == 1210 then some 7 else none
                else
                  if k < 1346 then
                    if k == 1325 then some 2 else none
                  else
                    if k == 1346 then some 8 else none
          else
            if k < 1793 then
              if k < 1657 then
                if k < 1577 then
                  if k == 1553 then some 3 else none
                else
                  if k < 1651 then
                    if k == 1577 then some 5 else none
                  else
                    if k == 1651 then some 2 else none
              else
                if k < 1733 then
                  if k < 1715 then
                    if k == 1657 then some 1 else none
                  else
                    if k == 1715 then some 3 else none
                else
                  if k < 1787 then
                    if k == 1733 then some 4 else none
                  else
                    if k == 1787 then some 3 else none
            else
              if k < 1906 then
                if k < 1891 then
                  if k == 1793 then some 3 else none
                else
                  if k < 1904 then
                    if k == 1891 then some 2 else none
                  else
                    if k == 1904 then some 8 else none
              else
                if k < 2187 then
                  if k < 2066 then
                    if k == 1906 then some 7 else none
                  else
                    if k == 2066 then some 7 else none
                else
                  if k < 2192 then
                    if k == 2187 then some 1 else none
                  else
                    if k == 2192 then some 4 else none
    else
      if k < 3128 then
        if k < 2505 then
          if k < 2363 then
            if k < 2270 then
              if k < 2220 then
                if k < 2202 then
                  if k == 2194 then some 6 else none
                else
                  if k < 2216 then
                    if k == 2202 then some 6 else none
                  else
                    if k == 2216 then some 2 else none
              else
                if k < 2237 then
                  if k == 2220 then some 6 else none
                else
                  if k < 2255 then
                    if k == 2237 then some 4 else none
                  else
                    if k == 2255 then some 6 else none
            else
              if k < 2303 then
                if k < 2274 then
                  if k == 2270 then some 1 else none
                else
                  if k < 2285 then
                    if k == 2274 then some 0 else none
                  else
                    if k == 2285 then some 6 else none
              else
                if k < 2350 then
                  if k < 2315 then
                    if k == 2303 then some 2 else none
                  else
                    if k == 2315 then some 1 else none
                else
                  if k < 2358 then
                    if k == 2350 then some 3 else none
                  else
                    if k == 2358 then some 3 else none
          else
            if k < 2413 then
              if k < 2381 then
                if k < 2365 then
                  if k == 2363 then some 8 else none
                else
                  if k < 2371 then
                    if k == 2365 then some 3 else none
                  else
                    if k == 2371 then some 6 else none
              else
                if k < 2387 then
                  if k == 2381 then some 8 else none
                else
                  if k < 2407 then
                    if k == 2387 then some 8 else none
                  else
                    if k == 2407 then some 5 else none
            else
              if k < 2448 then
                if k < 2415 then
                  if k == 2413 then some 5 else none
                else
                  if k < 2436 then
                    if k == 2415 then some 5 else none
                  else
                    if k == 2436 then some 6 else none
              else
                if k < 2477 then
                  if k < 2453 then
                    if k == 2448 then some 0 else none
                  else
                    if k == 2453 then some 4 else none
                else
                  if k < 2503 then
                    if k == 2477 then some 1 else none
                  else
                    if k == 2503 then some 4 else none
        else
          if k < 2662 then
            if k < 2597 then
              if k < 2567 then
                if k < 2519 then
                  if k == 2505 then some 4 else none
                else
                  if k < 2531 then
                    if k == 2519 then some 2 else none
                  else
                    if k == 2531 then some 1 else none
              else
                if k < 2583 then
                  if k == 2567 then some 6 else none
                else
                  if k < 2590 then
                    if k == 2583 then some 1 else none
                  else
                    if k == 2590 then some 8 else none
            else
              if k < 2637 then
                if k < 2599 then
                  if k == 2597 then some 8 else none
                else
                  if k < 2621 then
                    if k == 2599 then some 6 else none
                  else
                    if k == 2621 then some 8 else none
              else
                if k < 2647 then
                  if k < 2642 then
                    if k == 2637 then some 6 else none
                  else
                    if k == 2642 then some 6 else none
                else
                  if k < 2655 then
                    if k == 2647 then some 2 else none
                  else
                    if k == 2655 then some 8 else none
          else
            if k < 3005 then
              if k < 2798 then
                if k < 2668 then
                  if k == 2662 then some 8 else none
                else
                  if k < 2783 then
                    if k == 2668 then some 6 else none
                  else
                    if k == 2783 then some 1 else none
              else
                if k < 2951 then
                  if k < 2922 then
                    if k == 2798 then some 6 else none
                  else
                    if k == 2922 then some 8 else none
                else
                  if k < 2963 then
                    if k == 2951 then some 2 else none
                  else
                    if k == 2963 then some 1 else none
            else
              if k < 3083 then
                if k < 3017 then
                  if k == 3005 then some 2 else none
                else
                  if k < 3078 then
                    if k == 3017 then some 1 else none
                  else
                    if k == 3078 then some 8 else none
              else
                if k < 3107 then
                  if k < 3093 then
                    if k == 3083 then some 8 else none
                  else
                    if k == 3093 then some 8 else none
                else
                  if k < 3122 then
                    if k == 3107 then some 8 else none
                  else
                    if k == 3122 then some 8 else none
      else
        if k < 3893 then
          if k < 3394 then
            if k < 3179 then
              if k < 3146 then
                if k < 3133 then
                  if k == 3128 then some 8 else none
                else
                  if k < 3141 then
                    if k == 3133 then some 5 else none
                  else
                    if k == 3141 then some 5 else none
              else
                if k < 3148 then
                  if k == 3146 then some 5 else none
                else
                  if k < 3154 then
                    if k == 3148 then some 5 else none
                  else
                    if k == 3154 then some 5 else none
            else
              if k < 3327 then
                if k < 3314 then
                  if k == 3179 then some 1 else none
                else
                  if k < 3318 then
                    if k == 3314 then some 1 else none
                  else
                    if k == 3318 then some 0 else none
              else
                if k < 3368 then
                  if k < 3344 then
                    if k == 3327 then some 8 else none
                  else
                    if k == 3344 then some 8 else none
                else
                  if k < 3382 then
                    if k == 3368 then some 1 else none
                  else
                    if k == 3382 then some 8 else none
          else
            if k < 3733 then
              if k < 3530 then
                if k < 3396 then
                  if k == 3394 then some 8 else none
                else
                  if k < 3518 then
                    if k == 3396 then some 8 else none
                  else
                    if k == 3518 then some 2 else none
              else
                if k < 3679 then
                  if k < 3661 then
                    if k == 3530 then some 1 else none
                  else
                    if k == 3661 then some 4 else none
                else
                  if k < 3687 then
                    if k == 3679 then some 4 else none
                  else
                    if k == 3687 then some 4 else none
            else
              if k < 3759 then
                if k < 3737 then
                  if k == 3733 then some 8 else none
                else
                  if k < 3741 then
                    if k == 3737 then some 3 else none
                  else
                    if k == 3741 then some 0 else none
              else
                if k < 3835 then
                  if k < 3770 then
                    if k == 3759 then some 5 else none
                  else
                    if k == 3770 then some 5 else none
                else
                  if k < 3850 then
                    if k == 3835 then some 2 else none
                  else
                    if k == 3850 then some 5 else none
        else
          if k < 4250 then
            if k < 4030 then
              if k < 3921 then
                if k < 3895 then
                  if k == 3893 then some 3 else none
                else
                  if k < 3903 then
                    if k == 3895 then some 4 else none
                  else
                    if k == 3903 then some 8 else none
              else
                if k < 3975 then
                  if k == 3921 then some 4 else none
                else
                  if k < 3986 then
                    if k == 3975 then some 3 else none
                  else
                    if k == 3986 then some 3 else none
            else
              if k < 4082 then
                if k < 4038 then
                  if k == 4030 then some 8 else none
                else
                  if k < 4066 then
                    if k == 4038 then some 0 else none
                  else
                    if k == 4066 then some 8 else none
              else
                if k < 4092 then
                  if k < 4084 then
                    if k == 4082 then some 2 else none
                  else
                    if k == 4084 then some 2 else none
                else
                  if k < 4246 then
                    if k == 4092 then some 8 else none
                  else
                    if k == 4246 then some 8 else none
          else
            if k < 4982 then
              if k < 4487 then
                if k < 4254 then
                  if k == 4250 then some 1 else none
                else
                  if k < 4469 then
                    if k == 4254 then some 0 else none
                  else
                    if k == 4469 then some 6 else none
              else
                if k < 4766 then
                  if k < 4703 then
                    if k == 4487 then some 5 else none
                  else
                    if k == 4703 then some 3 else none
                else
                  if k < 4774 then
                    if k == 4766 then some 6 else none
                  else
                    if k == 4774 then some 8 else none
            else
              if k < 5450 then
                if k < 5189 then
                  if k == 4982 then some 6 else none
                else
                  if k < 5234 then
                    if k == 5189 then some 2 else none
                  else
                    if k == 5234 then some 5 else none
              else
                if k < 5502 then
                  if k < 5486 then
                    if k == 5450 then some 3 else none
                  else
                    if k == 5486 then some 2 else none
                else
                  if k < 5702 then
                    if k == 5502 then some 0 else none
                  else
                    if k == 5702 then some 2 else none
  else
    if k < 10221 then
      if k < 7502 then
        if k < 6941 then
          if k < 6737 then
            if k < 6629 then
              if k < 6566 then
                if k < 6170 then
                  if k == 5954 then some 8 else none
                else
                  if k < 6561 then
                    if k == 6170 then some 3 else none
                  else
                    if k == 6561 then some 4 else none
              else
                if k < 6590 then
                  if k == 6566 then some 4 else none
                else
                  if k < 6611 then
                    if k == 6590 then some 2 else none
                  else
                    if k == 6611 then some 4 else none
            else
              if k < 6689 then
                if k < 6644 then
                  if k == 6629 then some 6 else none
                else
                  if k < 6665 then
                    if k == 6644 then some 2 else none
                  else
                    if k == 6665 then some 7 else none
              else
                if k < 6726 then
                  if k < 6724 then
                    if k == 6689 then some 1 else none
                  else
                    if k == 6724 then some 1 else none
                else
                  if k < 6732 then
                    if k == 6726 then some 0 else none
                  else
                    if k == 6732 then some 5 else none
          else
            if k < 6761 then
              if k < 6750 then
                if k < 6739 then
                  if k == 6737 then some 5 else none
                else
                  if k < 6745 then
                    if k == 6739 then some 7 else none
                  else
                    if k == 6745 then some 6 else none
              else
                if k < 6755 then
                  if k == 6750 then some 0 else none
                else
                  if k < 6757 then
                    if k == 6755 then some 2 else none
                  else
                    if k == 6757 then some 7 else none
            else
              if k < 6851 then
                if k < 6822 then
                  if k == 6761 then some 5 else none
                else
                  if k < 6827 then
                    if k == 6822 then some 0 else none
                  else
                    if k == 6827 then some 6 else none
              else
                if k < 6879 then
                  if k < 6877 then
                    if k == 6851 then some 1 else none
                  else
                    if k == 6877 then some 4 else none
                else
                  if k < 6905 then
                    if k == 6879 then some 6 else none
                  else
                    if k == 6905 then some 1 else none
        else
          if k < 7172 then
            if k < 6985 then
              if k < 6966 then
                if k < 6957 then
                  if k == 6941 then some 6 else none
                else
                  if k < 6962 then
                    if k == 6957 then some 0 else none
                  else
                    if k == 6962 then some 6 else none
              else
                if k < 6971 then
                  if k == 6966 then some 2 else none
                else
                  if k < 6973 then
                    if k == 6971 then some 2 else none
                  else
                    if k == 6973 then some 7 else none
            else
              if k < 7011 then
                if k < 6987 then
                  if k == 6985 then some 6 else none
                else
                  if k < 6995 then
                    if k == 6987 then some 6 else none
                  else
                    if k == 6995 then some 2 else none
              else
                if k < 7042 then
                  if k < 7016 then
                    if k == 7011 then some 6 else none
                  else
                    if k == 7016 then some 6 else none
                else
                  if k < 7157 then
                    if k == 7042 then some 6 else none
                  else
                    if k == 7157 then some 1 else none
          else
            if k < 7391 then
              if k < 7245 then
                if k < 7219 then
                  if k == 7172 then some 6 else none
                else
                  if k < 7221 then
                    if k == 7219 then some 3 else none
                  else
                    if k == 7221 then some 3 else none
              else
                if k < 7325 then
                  if k < 7250 then
                    if k == 7245 then some 0 else none
                  else
                    if k == 7250 then some 6 else none
                else
                  if k < 7337 then
                    if k == 7325 then some 2 else none
                  else
                    if k == 7337 then some 1 else none
            else
              if k < 7459 then
                if k < 7452 then
                  if k == 7391 then some 1 else none
                else
                  if k < 7457 then
                    if k == 7452 then some 7 else none
                  else
                    if k == 7457 then some 7 else none
              else
                if k < 7481 then
                  if k < 7467 then
                    if k == 7459 then some 7 else none
                  else
                    if k == 7467 then some 7 else none
                else
                  if k < 7496 then
                    if k == 7481 then some 7 else none
                  else
                    if k == 7496 then some 7 else none
      else
        if k < 8456 then
          if k < 7892 then
            if k < 7701 then
              if k < 7528 then
                if k < 7507 then
                  if k == 7502 then some 7 else none
                else
                  if k < 7520 then
                    if k == 7507 then some 5 else none
                  else
                    if k == 7520 then some 5 else none
              else
                if k < 7553 then
                  if k == 7528 then some 5 else none
                else
                  if k < 7688 then
                    if k == 7553 then some 1 else none
                  else
                    if k == 7688 then some 1 else none
            else
              if k < 7742 then
                if k < 7713 then
                  if k == 7701 then some 7 else none
                else
                  if k < 7718 then
                    if k == 7713 then some 7 else none
                  else
                    if k == 7718 then some 7 else none
              else
                if k < 7768 then
                  if k < 7756 then
                    if k == 7742 then some 1 else none
                  else
                    if k == 7756 then some 7 else none
                else
                  if k < 7770 then
                    if k == 7768 then some 7 else none
                  else
                    if k == 7770 then some 7 else none
          else
            if k < 8209 then
              if k < 7952 then
                if k < 7904 then
                  if k == 7892 then some 2 else none
                else
                  if k < 7947 then
                    if k == 7904 then some 1 else none
                  else
                    if k == 7947 then some 3 else none
              else
                if k < 7976 then
                  if k == 7952 then some 3 else none
                else
                  if k < 8111 then
                    if k == 7976 then some 7 else none
                  else
                    if k == 8111 then some 3 else none
            else
              if k < 8312 then
                if k < 8224 then
                  if k == 8209 then some 2 else none
                else
                  if k < 8267 then
                    if k == 8224 then some 7 else none
                  else
                    if k == 8267 then some 3 else none
              else
                if k < 8366 then
                  if k < 8338 then
                    if k == 8312 then some 4 else none
                  else
                    if k == 8338 then some 4 else none
                else
                  if k < 8418 then
                    if k == 8366 then some 3 else none
                  else
                    if k == 8418 then some 0 else none
        else
          if k < 8980 then
            if k < 8910 then
              if k < 8795 then
                if k < 8624 then
                  if k == 8456 then some 2 else none
                else
                  if k < 8754 then
                    if k == 8624 then some 1 else none
                  else
                    if k == 8754 then some 6 else none
              else
                if k < 8837 then
                  if k == 8795 then some 1 else none
                else
                  if k < 8849 then
                    if k == 8837 then some 2 else none
                  else
                    if k == 8849 then some 1 else none
            else
              if k < 8939 then
                if k < 8915 then
                  if k == 8910 then some 6 else none
                else
                  if k < 8917 then
                    if k == 8915 then some 6 else none
                  else
                    if k == 8917 then some 6 else none
              else
                if k < 8965 then
                  if k < 8960 then
                    if k == 8939 then some 6 else none
                  else
                    if k == 8960 then some 6 else none
                else
                  if k < 8973 then
                    if k == 8965 then some 5 else none
                  else
                    if k == 8973 then some 5 else none
          else
            if k < 9226 then
              if k < 9150 then
                if k < 9011 then
                  if k == 8980 then some 5 else none
                else
                  if k < 9146 then
                    if k == 9011 then some 1 else none
                  else
                    if k == 9146 then some 1 else none
              else
                if k < 9176 then
                  if k < 9171 then
                    if k == 9150 then some 0 else none
                  else
                    if k == 9171 then some 6 else none
                else
                  if k < 9200 then
                    if k == 9176 then some 6 else none
                  else
                    if k == 9200 then some 1 else none
            else
              if k < 9405 then
                if k < 9228 then
                  if k == 9226 then some 6 else none
                else
                  if k < 9350 then
                    if k == 9228 then some 6 else none
                  else
                    if k == 9350 then some 2 else none
              else
                if k < 9434 then
                  if k < 9410 then
                    if k == 9405 then some 3 else none
                  else
                    if k == 9410 then some 3 else none
                else
                  if k < 10213 then
                    if k == 9434 then some 6 else none
                  else
                    if k == 10213 then some 4 else none
    else
      if k < 12088 then
        if k < 10616 then
          if k < 10400 then
            if k < 10338 then
              if k < 10293 then
                if k < 10239 then
                  if k == 10221 then some 5 else none
                else
                  if k < 10258 then
                    if k == 10239 then some 2 else none
                  else
                    if k == 10258 then some 4 else none
              else
                if k < 10304 then
                  if k == 10293 then some 0 else none
                else
                  if k < 10322 then
                    if k == 10304 then some 3 else none
                  else
                    if k == 10322 then some 2 else none
            else
              if k < 10377 then
                if k < 10369 then
                  if k == 10338 then some 0 else none
                else
                  if k < 10371 then
                    if k == 10369 then some 2 else none
                  else
                    if k == 10371 then some 2 else none
              else
                if k < 10384 then
                  if k < 10382 then
                    if k == 10377 then some 5 else none
                  else
                    if k == 10382 then some 3 else none
                else
                  if k < 10395 then
                    if k == 10384 then some 5 else none
                  else
                    if k == 10395 then some 2 else none
          else
            if k < 10474 then
              if k < 10410 then
                if k < 10402 then
                  if k == 10400 then some 2 else none
                else
                  if k < 10406 then
                    if k == 10402 then some 2 else none
                  else
                    if k == 10406 then some 5 else none
              else
                if k < 10455 then
                  if k == 10410 then some 5 else none
                else
                  if k < 10472 then
                    if k == 10455 then some 2 else none
                  else
                    if k == 10472 then some 3 else none
            else
              if k < 10538 then
                if k < 10500 then
                  if k == 10474 then some 4 else none
                else
                  if k < 10524 then
                    if k == 10500 then some 0 else none
                  else
                    if k == 10524 then some 0 else none
              else
                if k < 10590 then
                  if k < 10554 then
                    if k == 10538 then some 2 else none
                  else
                    if k == 10554 then some 0 else none
                else
                  if k < 10611 then
                    if k == 10590 then some 0 else none
                  else
                    if k == 10611 then some 2 else none
        else
          if k < 11282 then
            if k < 10788 then
              if k < 10644 then
                if k < 10618 then
                  if k == 10616 then some 2 else none
                else
                  if k < 10640 then
                    if k == 10618 then some 2 else none
                  else
                    if k == 10640 then some 2 else none
              else
                if k < 10708 then
                  if k == 10644 then some 2 else none
                else
                  if k < 10734 then
                    if k == 10708 then some 4 else none
                  else
                    if k == 10734 then some 0 else none
            else
              if k < 10866 then
                if k < 10806 then
                  if k == 10788 then some 0 else none
                else
                  if k < 10864 then
                    if k == 10806 then some 0 else none
                  else
                    if k == 10864 then some 3 else none
              else
                if k < 11021 then
                  if k < 10890 then
                    if k == 10866 then some 3 else none
                  else
                    if k == 10890 then some 0 else none
                else
                  if k < 11066 then
                    if k == 11021 then some 2 else none
                  else
                    if k == 11066 then some 5 else none
          else
            if k < 11835 then
              if k < 11534 then
                if k < 11318 then
                  if k == 11282 then some 3 else none
                else
                  if k < 11334 then
                    if k == 11318 then some 6 else none
                  else
                    if k == 11334 then some 0 else none
              else
                if k < 11827 then
                  if k < 11768 then
                    if k == 11534 then some 2 else none
                  else
                    if k == 11768 then some 3 else none
                else
                  if k < 11829 then
                    if k == 11827 then some 1 else none
                  else
                    if k == 11829 then some 0 else none
            else
              if k < 11858 then
                if k < 11840 then
                  if k == 11835 then some 1 else none
                else
                  if k < 11853 then
                    if k == 11840 then some 5 else none
                  else
                    if k == 11853 then some 1 else none
              else
                if k < 12069 then
                  if k < 11864 then
                    if k == 11858 then some 2 else none
                  else
                    if k == 11864 then some 1 else none
                else
                  if k < 12074 then
                    if k == 12069 then some 1 else none
                  else
                    if k == 12074 then some 2 else none
      else
        if k < 16180 then
          if k < 15706 then
            if k < 13537 then
              if k < 12114 then
                if k < 12090 then
                  if k == 12088 then some 1 else none
                else
                  if k < 12098 then
                    if k == 12090 then some 0 else none
                  else
                    if k == 12098 then some 1 else none
              else
                if k < 12488 then
                  if k == 12114 then some 1 else none
                else
                  if k < 13522 then
                    if k == 12488 then some 3 else none
                  else
                    if k == 13522 then some 7 else none
            else
              if k < 13570 then
                if k < 13539 then
                  if k == 13537 then some 1 else none
                else
                  if k < 13563 then
                    if k == 13539 then some 0 else none
                  else
                    if k == 13563 then some 0 else none
              else
                if k < 14265 then
                  if k < 14248 then
                    if k == 13570 then some 7 else none
                  else
                    if k == 14248 then some 1 else none
                else
                  if k < 14272 then
                    if k == 14265 then some 0 else none
                  else
                    if k == 14272 then some 7 else none
          else
            if k < 16071 then
              if k < 15778 then
                if k < 15723 then
                  if k == 15706 then some 1 else none
                else
                  if k < 15730 then
                    if k == 15723 then some 0 else none
                  else
                    if k == 15730 then some 3 else none
              else
                if k < 16045 then
                  if k < 15780 then
                    if k == 15778 then some 1 else none
                  else
                    if k == 15780 then some 0 else none
                else
                  if k < 16053 then
                    if k == 16045 then some 3 else none
                  else
                    if k == 16053 then some 4 else none
            else
              if k < 16125 then
                if k < 16082 then
                  if k == 16071 then some 0 else none
                else
                  if k < 16108 then
                    if k == 16082 then some 4 else none
                  else
                    if k == 16108 then some 4 else none
              else
                if k < 16154 then
                  if k < 16144 then
                    if k == 16125 then some 2 else none
                  else
                    if k == 16144 then some 5 else none
                else
                  if k < 16170 then
                    if k == 16154 then some 2 else none
                  else
                    if k == 16170 then some 0 else none
        else
          if k < 16370 then
            if k < 16242 then
              if k < 16209 then
                if k < 16201 then
                  if k == 16180 then some 2 else none
                else
                  if k < 16203 then
                    if k == 16201 then some 3 else none
                  else
                    if k == 16203 then some 0 else none
              else
                if k < 16216 then
                  if k == 16209 then some 0 else none
                else
                  if k < 16227 then
                    if k == 16216 then some 3 else none
                  else
                    if k == 16227 then some 0 else none
            else
              if k < 16287 then
                if k < 16258 then
                  if k == 16242 then some 0 else none
                else
                  if k < 16264 then
                    if k == 16258 then some 5 else none
                  else
                    if k == 16264 then some 5 else none
              else
                if k < 16316 then
                  if k < 16298 then
                    if k == 16287 then some 0 else none
                  else
                    if k == 16298 then some 4 else none
                else
                  if k < 16342 then
                    if k == 16316 then some 2 else none
                  else
                    if k == 16342 then some 2 else none
          else
            if k < 16506 then
              if k < 16450 then
                if k < 16386 then
                  if k == 16370 then some 2 else none
                else
                  if k < 16443 then
                    if k == 16386 then some 0 else none
                  else
                    if k == 16443 then some 0 else none
              else
                if k < 16476 then
                  if k < 16458 then
                    if k == 16450 then some 3 else none
                  else
                    if k == 16458 then some 0 else none
                else
                  if k < 16498 then
                    if k == 16476 then some 0 else none
                  else
                    if k == 16498 then some 1 else none
            else
              if k < 17026 then
                if k < 16864 then
                  if k == 16506 then some 0 else none
                else
                  if k < 16882 then
                    if k == 16864 then some 3 else none
                  else
                    if k == 16882 then some 5 else none
              else
                if k < 17098 then
                  if k < 17052 then
                    if k == 17026 then some 3 else none
                  else
                    if k == 17052 then some 4 else none
                else
                  if k < 17106 then
                    if k == 17098 then some 3 else none
                  else
                    if k == 17106 then some 3 else none

/-!
Packed mirror of the certificate check: a board is one natural number, nine
base-3 digits, digit `i` = cell `i` (the same encoding as `encode`), so that
the whole check runs on machine-accelerated `Nat` arithmetic.
-/

/-- Cell `i` of a packed board. -/
def getCell (bn i : Nat) : Nat := bn / 3 ^ i % 3

/-- `is_winner` on a packed board. -/
def is_winnerN (bn p : Nat) : Bool :=
  winning_combos.any (fun combo => combo.all (fun i => getCell bn i == p))

/-- `is_board_full` on a packed board. -/
def is_board_fullN (bn : Nat) : Bool :=
  (List.range 9).all (fun i => getCell bn i != 0)

/-- `get_available_moves` on a packed board. -/
def availN (bn : Nat) : List Nat :=
  (List.range 9).filter (fun i => getCell bn i == 0)

/-- Checks the certificate: from a human-to-move board, for every legal human
move either the game ends acceptably or the table supplies a legal computer
reply after which the check recurses.  `false` means the certificate does not
establish safety of the position. -/
def certOK : Nat → Board → Bool
  | 0, _ => false
  | fuel + 1, b =>
    if is_winner b human then false
    else if is_winner b computer then true
    else if is_board_full b then true
    else
      (get_available_moves b).all (fun m =>
        let b1 := b.set m human
        if is_winner b1 human then false
        else if is_board_full b1 then true
        else
          match certLookup (encode b1) with
          | none => false
          | some c =>
            if decide (c < 9) && (b1.getD c 0 == 0) then
              certOK fuel (b1.set c computer)
            else false)

/-- The same certificate check on packed boards: human moves add
`human * 3 ^ m`, computer replies add `computer * 3 ^ c`. -/
def certOKN : Nat → Nat → Bool
  | 0, _ => false
  | fuel + 1, bn =>
    if is_winnerN bn human then false
    else if is_winnerN bn computer then true
    else if is_board_fullN bn then true
    else
      (availN bn).all (fun m =>
        let b1 := bn + human * 3 ^ m
        if is_winnerN b1 human then false
        else if is_board_fullN b1 then true
        else
          match certLookup b1 with
          | none => false
          | some c =>
            if decide (c < 9) && (getCell b1 c == 0) then
              certOKN fuel (b1 + computer * 3 ^ c)
            else false)

end TicTacToe

namespace TicTacToe

/-! ### Board basics -/

theorem mem_available_iff {b : Board} {m : Nat} :
    m ∈ get_available_moves b ↔ m < 9 ∧ b.getD m 0 = 0 := by
  simp [get_available_moves, List.mem_filter, List.mem_range]

theorem getD_set_self {b : Board} {m : Nat} (h : m < b.length) (v : Nat) :
    (b.set m v).getD m 0 = v := by
  simp [List.getD_eq_getElem?_getD, List.getElem?_set_self h]

theorem getD_set_ne {b : Board} {m i : Nat} (h : m ≠ i) (v : Nat) :
    (b.set m v).getD i 0 = b.getD i 0 := by
  simp [List.getD_eq_getElem?_getD, List.getElem?_set_ne h]

theorem set_same_value {b : Board} {m : Nat} (h : b.getD m 0 = 0) :
    b.set m 0 = b := by
  apply List.ext_getElem?
  intro i
  rcases eq_or_ne m i with rfl | hne
  · rcases lt_or_le m b.length with hlt | hle
    · rw [List.getElem?_set_self hlt, List.getElem?_eq_getElem hlt]
      have hv : b[m] = 0 := by
        rw [List.getD_eq_getElem?_getD, List.getElem?_eq_getElem hlt] at h
        simpa using h
      rw [hv]
    · rw [List.set_eq_of_length_le hle]
  · rw [List.getElem?_set_ne hne]

theorem set_restore {b : Board} {m : Nat} (h : b.getD m 0 = 0) (v : Nat) :
    (b.set m v).set m 0 = b := by
  rw [List.set_set]; exact set_same_value h

theorem is_winner_set {b : Board} {c v p : Nat} (hvp : v ≠ p)
    (h : is_winner (b.set c v) p = true) : is_winner b p = true := by
  rcases lt_or_le c b.length with hlt | hle
  · simp only [is_winner, List.any_eq_true, List.all_eq_true] at h ⊢
    obtain ⟨combo, hc, hall⟩ := h
    refine ⟨combo, hc, fun i hi => ?_⟩
    have h1 := hall i hi
    rcases eq_or_ne c i with rfl | hne
    · rw [getD_set_self hlt] at h1
      exact absurd (by simpa using h1) hvp
    · rwa [getD_set_ne hne] at h1
  · rwa [List.set_eq_of_length_le hle] at h

theorem full_iff_available_nil {b : Board} (hb : b.length = 9) :
    is_board_full b = true ↔ get_available_moves b = [] := by
  simp only [is_board_full, List.all_eq_true, get_available_moves,
    List.filter_eq_nil_iff, List.mem_range]
  constructor
  · intro h i hi
    have hbi : b.getD i 0 ∈ b := by
      rw [List.getD_eq_getElem?_getD, List.getElem?_eq_getElem (by omega)]
      exact List.getElem_mem _
    simpa using h _ hbi
  · intro h cell hcell
    obtain ⟨i, hi, rfl⟩ := List.mem_iff_getElem.mp hcell
    have := h i (by omega)
    rw [List.getD_eq_getElem?_getD, List.getElem?_eq_getElem hi] at this
    simpa using this

theorem available_ne_nil {b : Board} (hb : b.length = 9)
    (h : is_board_full b = false) : get_available_moves b ≠ [] := by
  intro hnil
  rw [(full_iff_available_nil hb).mpr hnil] at h
  cases h

theorem empties_le_nine (b : Board) : empties b ≤ 9 := by
  have h := List.length_filter_le (fun i => b.getD i 0 == 0) (List.range 9)
  simpa [empties, get_available_moves] using h

theorem empties_pos {b : Board} {m : Nat} (hm : m ∈ get_available_moves b) :
    1 ≤ empties b :=
  List.length_pos.mpr (List.ne_nil_of_mem hm)

theorem filter_erase_point {p p' : Nat → Bool} {m : Nat} :
    ∀ {l : List Nat}, l.Nodup → m ∈ l → p m = true → p' m = false →
      (∀ x ∈ l, x ≠ m → p' x = p x) → l.filter p' = (l.filter p).erase m := by
  intro l
  induction l with
  | nil => intro _ hm; cases hm
  | cons x xs ih =>
    intro hnd hm hpm hp'm hcong
    rcases List.mem_cons.mp hm with rfl | hmem
    · have hxnot : m ∉ xs := (List.nodup_cons.mp hnd).1
      have hrest : xs.filter p' = xs.filter p := by
        apply List.filter_congr
        intro a ha
        exact hcong a (List.mem_cons_of_mem _ ha) (fun h => hxnot (h ▸ ha))
      simp [List.filter_cons, hp'm, hpm, hrest]
    · have hxm : x ≠ m := by
        rintro rfl; exact (List.nodup_cons.mp hnd).1 hmem
      have hrec := ih (List.nodup_cons.mp hnd).2 hmem hpm hp'm
        (fun a ha hne => hcong a (List.mem_cons_of_mem _ ha) hne)
      rw [List.filter_cons, List.filter_cons, hcong x (List.mem_cons_self x xs) hxm]
      by_cases hx : p x = true
      · simp only [hx, if_true, hrec]
        rw [List.erase_cons_tail]
        simp [hxm]
      · simp only [Bool.not_eq_true] at hx
        simp [hx, hrec]

theorem available_set {b : Board} {m v : Nat} (hlen : b.length = 9)
    (hm : m ∈ get_available_moves b) (hv : v ≠ 0) :
    get_available_moves (b.set m v) = (get_available_moves b).erase m := by
  obtain ⟨hm9, hm0⟩ := mem_available_iff.mp hm
  exact filter_erase_point (List.nodup_range 9) (List.mem_range.mpr hm9)
    (by simp only [beq_iff_eq]; exact hm0)
    (by simp only [Bool.eq_false_iff, ne_eq, beq_iff_eq]
        rw [getD_set_self (by omega : m < b.length)]; exact hv)
    (fun x _ hne => by rw [getD_set_ne (Ne.symm hne)])

theorem empties_set {b : Board} {m v : Nat} (hlen : b.length = 9)
    (hm : m ∈ get_available_moves b) (hv : v ≠ 0) :
    empties (b.set m v) = empties b - 1 := by
  rw [empties, empties, available_set hlen hm hv, List.length_erase_of_mem hm]

end TicTacToe

namespace TicTacToe

/-! ### Folds computing running maxima and minima -/

theorem foldl_max_init_le (g : Nat → Int) :
    ∀ (l : List Nat) (a : Int), a ≤ l.foldl (fun best m => max (g m) best) a := by
  intro l
  induction l with
  | nil => intro a; exact le_refl a
  | cons h t ih =>
    intro a
    exact le_trans (le_max_right (g h) a) (ih (max (g h) a))

theorem foldl_max_mem_le (g : Nat → Int) {l : List Nat} {m : Nat} (hm : m ∈ l) :
    ∀ (a : Int), g m ≤ l.foldl (fun best m => max (g m) best) a := by
  induction l with
  | nil => cases hm
  | cons h t ih =>
    intro a
    rcases List.mem_cons.mp hm with rfl | hmem
    · exact le_trans (le_max_left (g m) a) (foldl_max_init_le g t _)
    · exact ih hmem _

theorem foldl_max_le_of_all (g : Nat → Int) {K : Int} :
    ∀ {l : List Nat} {a : Int}, a ≤ K → (∀ m ∈ l, g m ≤ K) →
      l.foldl (fun best m => max (g m) best) a ≤ K := by
  intro l
  induction l with
  | nil => intro a ha _; exact ha
  | cons h t ih =>
    intro a ha hall
    exact ih (max_le (hall h (List.mem_cons_self h t)) ha)
      (fun m hm => hall m (List.mem_cons_of_mem _ hm))

theorem foldl_max_eq_init_or_mem (g : Nat → Int) :
    ∀ (l : List Nat) (a : Int),
      l.foldl (fun best m => max (g m) best) a = a ∨
      ∃ m ∈ l, l.foldl (fun best m => max (g m) best) a = g m := by
  intro l
  induction l with
  | nil => intro a; exact Or.inl rfl
  | cons h t ih =>
    intro a
    rcases ih (max (g h) a) with heq | ⟨m, hm, heq⟩
    · rcases max_choice (g h) a with hc | hc
      · exact Or.inr ⟨h, List.mem_cons_self h t, by rw [List.foldl_cons, heq, hc]⟩
      · exact Or.inl (by rw [List.foldl_cons, heq, hc])
    · exact Or.inr ⟨m, List.mem_cons_of_mem _ hm, by rw [List.foldl_cons, heq]⟩

theorem foldl_max_nonneg_iff (g : Nat → Int) {l : List Nat} {a : Int} (ha : a < 0) :
    0 ≤ l.foldl (fun best m => max (g m) best) a ↔ ∃ m ∈ l, 0 ≤ g m := by
  constructor
  · intro h
    rcases foldl_max_eq_init_or_mem g l a with heq | ⟨m, hm, heq⟩
    · rw [heq] at h; omega
    · exact ⟨m, hm, heq ▸ h⟩
  · rintro ⟨m, hm, hgm⟩
    exact le_trans hgm (foldl_max_mem_le g hm a)

theorem foldl_min_le_init (g : Nat → Int) :
    ∀ (l : List Nat) (a : Int), l.foldl (fun best m => min (g m) best) a ≤ a := by
  intro l
  induction l with
  | nil => intro a; exact le_refl a
  | cons h t ih =>
    intro a
    exact le_trans (ih (min (g h) a)) (min_le_right (g h) a)

theorem foldl_min_le_mem (g : Nat → Int) {l : List Nat} {m : Nat} (hm : m ∈ l) :
    ∀ (a : Int), l.foldl (fun best m => min (g m) best) a ≤ g m := by
  induction l with
  | nil => cases hm
  | cons h t ih =>
    intro a
    rcases List.mem_cons.mp hm with rfl | hmem
    · exact le_trans (foldl_min_le_init g t _) (min_le_left (g m) a)
    · exact ih hmem _

theorem foldl_min_ge_of_all (g : Nat → Int) {K : Int} :
    ∀ {l : List Nat} {a : Int}, K ≤ a → (∀ m ∈ l, K ≤ g m) →
      K ≤ l.foldl (fun best m => min (g m) best) a := by
  intro l
  induction l with
  | nil => intro a ha _; exact ha
  | cons h t ih =>
    intro a ha hall
    exact ih (le_min (hall h (List.mem_cons_self h t)) ha)
      (fun m hm => hall m (List.mem_cons_of_mem _ hm))

theorem foldl_min_eq_init_or_mem (g : Nat → Int) :
    ∀ (l : List Nat) (a : Int),
      l.foldl (fun best m => min (g m) best) a = a ∨
      ∃ m ∈ l, l.foldl (fun best m => min (g m) best) a = g m := by
  intro l
  induction l with
  | nil => intro a; exact Or.inl rfl
  | cons h t ih =>
    intro a
    rcases ih (min (g h) a) with heq | ⟨m, hm, heq⟩
    · rcases min_choice (g h) a with hc | hc
      · exact Or.inr ⟨h, List.mem_cons_self h t, by rw [List.foldl_cons, heq, hc]⟩
      · exact Or.inl (by rw [List.foldl_cons, heq, hc])
    · exact Or.inr ⟨m, List.mem_cons_of_mem _ hm, by rw [List.foldl_cons, heq]⟩

theorem foldl_min_nonneg_iff (g : Nat → Int) {l : List Nat} {a : Int} (ha : 0 ≤ a) :
    0 ≤ l.foldl (fun best m => min (g m) best) a ↔ ∀ m ∈ l, 0 ≤ g m := by
  constructor
  · intro h m hm
    exact le_trans h (foldl_min_le_mem g hm a)
  · intro hall
    exact foldl_min_ge_of_all g ha hall

/-! ### Unfolding `minimax` -/

theorem minimax_of_computer_win {f d : Nat} {b : Board} {im : Bool}
    (h : is_winner b computer = true) : minimax f b d im = 10 - (d : Int) := by
  rw [minimax.eq_def]
  simp [evaluate, h]

theorem minimax_of_human_win {f d : Nat} {b : Board} {im : Bool}
    (hc : is_winner b computer = false) (hh : is_winner b human = true) :
    minimax f b d im = -10 + (d : Int) := by
  rw [minimax.eq_def]
  simp [evaluate, hc, hh]

theorem minimax_of_draw {f d : Nat} {b : Board} {im : Bool}
    (hc : is_winner b computer = false) (hh : is_winner b human = false)
    (hf : is_board_full b = true) : minimax f b d im = 0 := by
  rw [minimax.eq_def]
  simp [evaluate, hc, hh, hf]

theorem minimax_fuel_zero {d : Nat} {b : Board} {im : Bool}
    (hc : is_winner b computer = false) (hh : is_winner b human = false)
    (hf : is_board_full b = false) : minimax 0 b d im = 0 := by
  rw [minimax.eq_def]
  simp [evaluate, hc, hh, hf]

theorem minimax_max {f d : Nat} {b : Board}
    (hc : is_winner b computer = false) (hh : is_winner b human = false)
    (hf : is_board_full b = false) :
    minimax (f + 1) b d true =
      (get_available_moves b).foldl
        (fun best m => max (minimax f (b.set m computer) (d + 1) false) best)
        negInf := by
  rw [minimax.eq_def]
  simp [evaluate, hc, hh, hf]

theorem minimax_min {f d : Nat} {b : Board}
    (hc : is_winner b computer = false) (hh : is_winner b human = false)
    (hf : is_board_full b = false) :
    minimax (f + 1) b d false =
      (get_available_moves b).foldl
        (fun best m => min (minimax f (b.set m human) (d + 1) true) best)
        posInf := by
  rw [minimax.eq_def]
  simp [evaluate, hc, hh, hf]

end TicTacToe

namespace TicTacToe

/-- Attainable scores: from start depth `d` with fuel `f`, `d + f ≤ 20` keeps
every terminal adjustment inside `[-10, 10]`. -/
theorem minimax_range :
    ∀ (f : Nat) (b : Board) (d : Nat) (im : Bool), b.length = 9 → d + f ≤ 20 →
      -10 ≤ minimax f b d im ∧ minimax f b d im ≤ 10 := by
  intro f
  induction f with
  | zero =>
    intro b d im hlen hd
    rcases hcw : is_winner b computer with _ | _
    · rcases hhw : is_winner b human with _ | _
      · rcases hfull : is_board_full b with _ | _
        · rw [minimax_fuel_zero hcw hhw hfull]; omega
        · rw [minimax_of_draw hcw hhw hfull]; omega
      · rw [minimax_of_human_win hcw hhw]; omega
    · rw [minimax_of_computer_win hcw]; omega
  | succ f ih =>
    intro b d im hlen hd
    rcases hcw : is_winner b computer with _ | _
    · rcases hhw : is_winner b human with _ | _
      · rcases hfull : is_board_full b with _ | _
        · obtain ⟨m, hm⟩ := List.exists_mem_of_ne_nil _ (available_ne_nil hlen hfull)
          cases im
          · rw [minimax_min hcw hhw hfull]
            constructor
            · apply foldl_min_ge_of_all _ (by decide)
              intro m' hm'
              exact (ih (b.set m' human) (d + 1) true (by simp [hlen]) (by omega)).1
            · exact le_trans (foldl_min_le_mem _ hm _)
                (ih (b.set m human) (d + 1) true (by simp [hlen]) (by omega)).2
          · rw [minimax_max hcw hhw hfull]
            constructor
            · exact le_trans (ih (b.set m computer) (d + 1) false (by simp [hlen]) (by omega)).1
                (foldl_max_mem_le _ hm _)
            · apply foldl_max_le_of_all _ (by decide)
              intro m' hm'
              exact (ih (b.set m' computer) (d + 1) false (by simp [hlen]) (by omega)).2
        · rw [minimax_of_draw hcw hhw hfull]; omega
      · rw [minimax_of_human_win hcw hhw]; omega
    · rw [minimax_of_computer_win hcw]; omega

/-- The sign of a `minimax` value does not depend on the starting depth or on
the fuel, as long as the fuel covers the empty cells and the total depth stays
below 10.  Win scores are then at least `1`, loss scores at most `-1`. -/
theorem minimax_sign :
    ∀ (f f' d d' : Nat) (b : Board) (im : Bool), b.length = 9 →
      empties b ≤ f → empties b ≤ f' → d + empties b ≤ 9 → d' + empties b ≤ 9 →
      (0 ≤ minimax f b d im ↔ 0 ≤ minimax f' b d' im) := by
  intro f
  induction f with
  | zero =>
    intro f' d d' b im hlen hef hef' hd hd'
    rcases hcw : is_winner b computer with _ | _
    · rcases hhw : is_winner b human with _ | _
      · rcases hfull : is_board_full b with _ | _
        · exfalso
          have h1 := empties_pos (m := (get_available_moves b).head
            (available_ne_nil hlen hfull)) (List.head_mem _)
          omega
        · rw [minimax_of_draw hcw hhw hfull, minimax_of_draw hcw hhw hfull]
      · rw [minimax_of_human_win hcw hhw, minimax_of_human_win hcw hhw]; omega
    · rw [minimax_of_computer_win hcw, minimax_of_computer_win hcw]; omega
  | succ f ih =>
    intro f' d d' b im hlen hef hef' hd hd'
    rcases hcw : is_winner b computer with _ | _
    · rcases hhw : is_winner b human with _ | _
      · rcases hfull : is_board_full b with _ | _
        · have hepos : 1 ≤ empties b :=
            empties_pos (m := (get_available_moves b).head
              (available_ne_nil hlen hfull)) (List.head_mem _)
          obtain ⟨f'', rfl⟩ : ∃ k, f' = k + 1 := ⟨f' - 1, by omega⟩
          cases im
          · rw [minimax_min hcw hhw hfull, minimax_min hcw hhw hfull,
              foldl_min_nonneg_iff _ (by decide), foldl_min_nonneg_iff _ (by decide)]
            constructor
            · intro h m hm
              have he := empties_set hlen hm (v := human) (by decide)
              exact (ih f'' (d + 1) (d' + 1) (b.set m human) true (by simp [hlen])
                (by omega) (by omega) (by omega) (by omega)).mp (h m hm)
            · intro h m hm
              have he := empties_set hlen hm (v := human) (by decide)
              exact (ih f'' (d + 1) (d' + 1) (b.set m human) true (by simp [hlen])
                (by omega) (by omega) (by omega) (by omega)).mpr (h m hm)
          · rw [minimax_max hcw hhw hfull, minimax_max hcw hhw hfull,
              foldl_max_nonneg_iff _ (by decide), foldl_max_nonneg_iff _ (by decide)]
            constructor
            · rintro ⟨m, hm, h⟩
              have he := empties_set hlen hm (v := computer) (by decide)
              exact ⟨m, hm, (ih f'' (d + 1) (d' + 1) (b.set m computer) false
                (by simp [hlen]) (by omega) (by omega) (by omega) (by omega)).mp h⟩
            · rintro ⟨m, hm, h⟩
              have he := empties_set hlen hm (v := computer) (by decide)
              exact ⟨m, hm, (ih f'' (d + 1) (d' + 1) (b.set m computer) false
                (by simp [hlen]) (by omega) (by omega) (by omega) (by omega)).mpr h⟩
        · rw [minimax_of_draw hcw hhw hfull, minimax_of_draw hcw hhw hfull]
      · rw [minimax_of_human_win hcw hhw, minimax_of_human_win hcw hhw]; omega
    · rw [minimax_of_computer_win hcw, minimax_of_computer_win hcw]; omega

end TicTacToe

namespace TicTacToe

/-- The `get_best_move` fold either never updates (every score at most the
initial one), or returns the first move whose score strictly dominates
everything before it and is not exceeded after it. -/
theorem bestfold_spec (g : Nat → Int) :
    ∀ (l : List Nat) (a : Int) (c0 : Option Nat),
      (l.foldl (fun acc m => if g m > acc.1 then (g m, some m) else acc) (a, c0) = (a, c0) ∧
        ∀ m ∈ l, g m ≤ a) ∨
      (∃ l1 c l2, l = l1 ++ c :: l2 ∧
        l.foldl (fun acc m => if g m > acc.1 then (g m, some m) else acc) (a, c0) =
          (g c, some c) ∧
        a < g c ∧ (∀ m ∈ l1, g m < g c) ∧ (∀ m ∈ l2, g m ≤ g c)) := by
  intro l
  induction l with
  | nil => intro a c0; exact Or.inl ⟨rfl, by simp⟩
  | cons h t ih =>
    intro a c0
    by_cases hh : g h > a
    · have step : (h :: t).foldl
          (fun acc m => if g m > acc.1 then (g m, some m) else acc) (a, c0) =
          t.foldl (fun acc m => if g m > acc.1 then (g m, some m) else acc) (g h, some h) := by
        rw [List.foldl_cons, if_pos hh]
      rcases ih (g h) (some h) with ⟨heq, hall⟩ | ⟨l1, c, l2, hsplit, heq, hgt, h1, h2⟩
      · exact Or.inr ⟨[], h, t, rfl, by rw [step, heq], hh, by simp, hall⟩
      · refine Or.inr ⟨h :: l1, c, l2, by simp [hsplit], by rw [step, heq],
          lt_trans hh hgt, ?_, h2⟩
        intro m hm
        rcases List.mem_cons.mp hm with rfl | hmem
        · exact hgt
        · exact h1 m hmem
    · have step : (h :: t).foldl
          (fun acc m => if g m > acc.1 then (g m, some m) else acc) (a, c0) =
          t.foldl (fun acc m => if g m > acc.1 then (g m, some m) else acc) (a, c0) := by
        rw [List.foldl_cons, if_neg hh]
      push_neg at hh
      rcases ih a c0 with ⟨heq, hall⟩ | ⟨l1, c, l2, hsplit, heq, hgt, h1, h2⟩
      · refine Or.inl ⟨by rw [step, heq], ?_⟩
        intro m hm
        rcases List.mem_cons.mp hm with rfl | hmem
        · exact hh
        · exact hall m hmem
      · refine Or.inr ⟨h :: l1, c, l2, by simp [hsplit], by rw [step, heq], hgt, ?_, h2⟩
        intro m hm
        rcases List.mem_cons.mp hm with rfl | hmem
        · exact lt_of_le_of_lt hh hgt
        · exact h1 m hmem

theorem available_pairwise (b : Board) :
    (get_available_moves b).Pairwise (· < ·) :=
  (List.pairwise_lt_range 9).filter _

/-- On a full board the `get_best_move` loop body never runs: `None`. -/
theorem get_best_move_of_full {b : Board} (hlen : b.length = 9)
    (hfull : is_board_full b = true) : get_best_move b = none := by
  rw [get_best_move, (full_iff_available_nil hlen).mp hfull]
  rfl

/-- On a non-full board `get_best_move` returns the first available move whose
`minimax` score is maximal. -/
theorem get_best_move_spec {b : Board} (hlen : b.length = 9)
    (hfull : is_board_full b = false) :
    ∃ c, get_best_move b = some c ∧ c ∈ get_available_moves b ∧
      (∀ m ∈ get_available_moves b,
        minimax 9 (b.set m computer) 0 false ≤ minimax 9 (b.set c computer) 0 false) ∧
      (∀ m ∈ get_available_moves b,
        minimax 9 (b.set m computer) 0 false = minimax 9 (b.set c computer) 0 false →
        c ≤ m) := by
  have hfold : get_best_move b =
      ((get_available_moves b).foldl
        (fun acc m => if (fun m => minimax 9 (b.set m computer) 0 false) m > acc.1
          then ((fun m => minimax 9 (b.set m computer) 0 false) m, some m) else acc)
        (negInf, (none : Option Nat))).2 := rfl
  rcases bestfold_spec (fun m => minimax 9 (b.set m computer) 0 false)
      (get_available_moves b) negInf none with ⟨heq, hall⟩ | ⟨l1, c, l2, hsplit, heq, _, h1, h2⟩
  · exfalso
    obtain ⟨m, hm⟩ := List.exists_mem_of_ne_nil _ (available_ne_nil hlen hfull)
    have hr := (minimax_range 9 (b.set m computer) 0 false (by simp [hlen]) (by omega)).1
    have := hall m hm
    simp only [negInf] at this
    omega
  · refine ⟨c, by rw [hfold, heq], hsplit ▸ List.mem_append_right _ (List.mem_cons_self c l2),
      ?_, ?_⟩
    · intro m hm
      rw [hsplit] at hm
      rcases List.mem_append.mp hm with hmem | hmem
      · exact le_of_lt (h1 m hmem)
      · rcases List.mem_cons.mp hmem with rfl | hmem
        · exact le_refl _
        · exact h2 m hmem
    · intro m hm hmeq
      rw [hsplit] at hm
      rcases List.mem_append.mp hm with hmem | hmem
      · exact absurd hmeq (ne_of_lt (h1 m hmem))
      · rcases List.mem_cons.mp hmem with rfl | hmem
        · exact le_refl m
        · have hpw := available_pairwise b
          rw [hsplit] at hpw
          exact le_of_lt ((List.pairwise_cons.mp (List.pairwise_append.mp hpw).2.1).1 m hmem)

end TicTacToe

namespace TicTacToe

theorem human_not_winner_of_nonneg {b : Board}
    (hcw : is_winner b computer = false) (hval : 0 ≤ minimax 9 b 0 false) :
    is_winner b human = false := by
  rcases h : is_winner b human with _ | _
  · rfl
  · rw [minimax_of_human_win hcw h] at hval
    omega

theorem not_full_of_mem_available {b : Board} {m : Nat} (hlen : b.length = 9)
    (hm : m ∈ get_available_moves b) : is_board_full b = false := by
  rcases h : is_board_full b with _ | _
  · rfl
  · rw [(full_iff_available_nil hlen).mp h] at hm
    cases hm

theorem computer_not_winner_set_human {b : Board} {m : Nat}
    (hcw : is_winner b computer = false) :
    is_winner (b.set m human) computer = false := by
  rcases h : is_winner (b.set m human) computer with _ | _
  · rfl
  · rw [is_winner_set (by decide) h] at hcw
    cases hcw

/-- Soundness of the certificate: a checked human-to-move board has
nonnegative minimax value for the computer. -/
theorem certOK_sound :
    ∀ (f : Nat) (b : Board), b.length = 9 → certOK f b = true →
      0 ≤ minimax 9 b 0 false := by
  intro f
  induction f with
  | zero => intro b _ h; rw [certOK] at h; cases h
  | succ f ih =>
    intro b hlen hc
    rw [certOK] at hc
    rcases hhw : is_winner b human with _ | _
    · rcases hcw : is_winner b computer with _ | _
      · rcases hfull : is_board_full b with _ | _
        · simp only [hhw, hcw, hfull, Bool.false_eq_true, if_false] at hc
          rw [minimax_min hcw hhw hfull]
          apply (foldl_min_nonneg_iff _ (by decide)).mpr
          intro m hm
          have hinner := List.all_eq_true.mp hc m hm
          have hcw1 : is_winner (b.set m human) computer = false :=
            computer_not_winner_set_human hcw
          rcases hw1 : is_winner (b.set m human) human with _ | _
          · rcases hf1 : is_board_full (b.set m human) with _ | _
            · simp only [hw1, hf1, Bool.false_eq_true, if_false] at hinner
              rcases hlk : certLookup (encode (b.set m human)) with _ | c
              · rw [hlk] at hinner; cases hinner
              · rw [hlk] at hinner
                simp only [] at hinner
                rcases hleg : (decide (c < 9) && ((b.set m human).getD c 0 == 0)) with _ | _
                · rw [hleg] at hinner
                  simp only [Bool.false_eq_true, if_false] at hinner
                · rw [hleg] at hinner
                  simp only [if_true] at hinner
                  have hlegs := hleg
                  simp only [Bool.and_eq_true, decide_eq_true_eq, beq_iff_eq] at hlegs
                  have hcmem : c ∈ get_available_moves (b.set m human) :=
                    mem_available_iff.mpr ⟨hlegs.1, hlegs.2⟩
                  have hlen1 : (b.set m human).length = 9 := by simp [hlen]
                  have hlen2 : ((b.set m human).set c computer).length = 9 := by simp [hlen]
                  have hIH := ih _ hlen2 hinner
                  have he1 := empties_set hlen hm (v := human) (by decide)
                  have he2 := empties_set hlen1 hcmem (v := computer) (by decide)
                  have hep := empties_pos hm
                  have hep1 := empties_pos hcmem
                  have he9 := empties_le_nine b
                  have hsign := minimax_sign 9 7 0 2
                    ((b.set m human).set c computer) false hlen2
                    (by omega) (by omega) (by omega) (by omega)
                  rw [minimax_max hcw1 hw1 hf1]
                  apply (foldl_max_nonneg_iff _ (by decide)).mpr
                  exact ⟨c, hcmem, hsign.mp hIH⟩
            · rw [minimax_of_draw hcw1 hw1 hf1]
          · simp only [hw1, if_true] at hinner
            cases hinner
        · rw [minimax_of_draw hcw hhw hfull]
      · rw [minimax_of_computer_win hcw]
        omega
    · simp only [hhw, if_true] at hc
      cases hc

end TicTacToe

namespace TicTacToe

/-- Inductive step of never-losing: from any human-to-move board that the
computer has not already lost control of (value at least 0, computer not
already a winner), no continuation of play reaches `HumanWins`. -/
theorem play_from_safe :
    ∀ (ms : List Nat) (b : Board), b.length = 9 → is_winner b computer = false →
      0 ≤ minimax 9 b 0 false → play_from b ms ≠ Outcome.HumanWins := by
  intro ms
  induction ms with
  | nil =>
    intro b hlen hcw hval
    have hhw := human_not_winner_of_nonneg hcw hval
    rw [play_from, game_status]
    simp only [hhw, Bool.false_eq_true, if_false]
    split
    · exact fun h => Outcome.noConfusion h
    · split
      · exact fun h => Outcome.noConfusion h
      · exact fun h => Outcome.noConfusion h
  | cons m ms ih =>
    intro b hlen hcw hval
    rw [play_from]
    by_cases hleg : m < 9 ∧ b.getD m 0 == 0
    · rw [if_pos hleg]
      obtain ⟨hm9, hm0b⟩ := hleg
      have hm0 : b.getD m 0 = 0 := by simpa using hm0b
      have hm : m ∈ get_available_moves b := mem_available_iff.mpr ⟨hm9, hm0⟩
      have hhw := human_not_winner_of_nonneg hcw hval
      have hfull : is_board_full b = false := not_full_of_mem_available hlen hm
      have hlen1 : (b.set m human).length = 9 := by simp [hlen]
      have hcw1 : is_winner (b.set m human) computer = false :=
        computer_not_winner_set_human hcw
      rw [minimax_min hcw hhw hfull] at hval
      have hval1 : 0 ≤ minimax 8 (b.set m human) (0 + 1) true :=
        (foldl_min_nonneg_iff _ (by decide)).mp hval m hm
      rcases hw1 : is_winner (b.set m human) human with _ | _
      · rcases hf1 : is_board_full (b.set m human) with _ | _
        · obtain ⟨c, hgbm, hcmem, hcmax, _⟩ := get_best_move_spec hlen1 hf1
          rw [minimax_max hcw1 hw1 hf1] at hval1
          obtain ⟨c0, hc0mem, hc0⟩ := (foldl_max_nonneg_iff _ (by decide)).mp hval1
          have he1 := empties_set hlen hm (v := human) (by decide)
          have he2 := empties_set hlen1 hc0mem (v := computer) (by decide)
          have hep := empties_pos hm
          have hep1 := empties_pos hc0mem
          have he9 := empties_le_nine b
          have hlen2 : ((b.set m human).set c0 computer).length = 9 := by simp [hlen]
          have hsign := minimax_sign 7 9 (0 + 1 + 1) 0 ((b.set m human).set c0 computer)
            false hlen2 (by omega) (by omega) (by omega) (by omega)
          have hval2 : 0 ≤ minimax 9 ((b.set m human).set c computer) 0 false :=
            le_trans (hsign.mp hc0) (hcmax c0 hc0mem)
          simp only [hw1, hf1, hgbm, Bool.false_eq_true, if_false]
          rcases hcw2 : is_winner ((b.set m human).set c computer) computer with _ | _
          · rcases hf2 : is_board_full ((b.set m human).set c computer) with _ | _
            · simp only [hcw2, hf2, Bool.false_eq_true, if_false]
              exact ih _ (by simp [hlen]) hcw2 hval2
            · simp only [hcw2, hf2, Bool.false_eq_true, if_false, if_true]
              exact fun h => Outcome.noConfusion h
          · simp only [hcw2, if_true]
            exact fun h => Outcome.noConfusion h
        · simp only [hw1, hf1, Bool.false_eq_true, if_false, if_true]
          exact fun h => Outcome.noConfusion h
      · exfalso
        rw [minimax_of_human_win hcw1 hw1] at hval1
        omega
    · rw [if_neg hleg]
      exact ih b hlen hcw hval

end TicTacToe

namespace TicTacToe

/-! ### Packed boards agree with list boards -/

theorem any_congr {α : Type} {p q : α → Bool} :
    ∀ {l : List α}, (∀ a ∈ l, p a = q a) → l.any p = l.any q := by
  intro l
  induction l with
  | nil => intro _; rfl
  | cons x xs ih =>
    intro h
    simp only [List.any_cons, h x (List.mem_cons_self x xs),
      ih (fun a ha => h a (List.mem_cons_of_mem _ ha))]

theorem all_congr {α : Type} {p q : α → Bool} :
    ∀ {l : List α}, (∀ a ∈ l, p a = q a) → l.all p = l.all q := by
  intro l
  induction l with
  | nil => intro _; rfl
  | cons x xs ih =>
    intro h
    simp only [List.all_cons, h x (List.mem_cons_self x xs),
      ih (fun a ha => h a (List.mem_cons_of_mem _ ha))]

theorem bool_eq_of_iff {a b : Bool} (h : a = true ↔ b = true) : a = b := by
  cases a <;> cases b <;> simp_all

theorem encode_cons (x : Nat) (xs : Board) : encode (x :: xs) = 3 * encode xs + x := rfl

theorem getCell_encode :
    ∀ (b : Board), (∀ c ∈ b, c < 3) → ∀ i, i < b.length →
      getCell (encode b) i = b.getD i 0 := by
  intro b
  induction b with
  | nil => intro _ i hi; cases hi
  | cons x xs ih =>
    intro hc i hi
    have hx : x < 3 := hc x (List.mem_cons_self x xs)
    match i with
    | 0 =>
      show (3 * encode xs + x) / 3 ^ 0 % 3 = (x :: xs).getD 0 0
      simp only [pow_zero, Nat.div_one, List.getD_cons_zero]
      omega
    | i + 1 =>
      show (3 * encode xs + x) / 3 ^ (i + 1) % 3 = (x :: xs).getD (i + 1) 0
      have h1 : (3 * encode xs + x) / 3 ^ (i + 1) = encode xs / 3 ^ i := by
        rw [pow_succ, Nat.mul_comm (3 ^ i) 3, ← Nat.div_div_eq_div_mul]
        congr 1
        omega
      rw [h1, List.getD_cons_succ]
      exact ih (fun a ha => hc a (List.mem_cons_of_mem _ ha)) i (by simpa using hi)

theorem encode_set :
    ∀ (b : Board) (m v : Nat), m < b.length → b.getD m 0 = 0 →
      encode (b.set m v) = encode b + v * 3 ^ m := by
  intro b
  induction b with
  | nil => intro m v hm; cases hm
  | cons x xs ih =>
    intro m v hm h0
    match m with
    | 0 =>
      have hx : x = 0 := by simpa using h0
      subst hx
      show encode (v :: xs) = encode (0 :: xs) + v * 3 ^ 0
      rw [encode_cons, encode_cons]
      simp
    | m + 1 =>
      show encode (x :: xs.set m v) = encode (x :: xs) + v * 3 ^ (m + 1)
      rw [encode_cons, encode_cons,
        ih m v (by simpa using hm) (by simpa using h0), pow_succ]
      ring

theorem cells_lt_set {b : Board} (h : ∀ c ∈ b, c < 3) {m v : Nat} (hv : v < 3) :
    ∀ c ∈ b.set m v, c < 3 := by
  intro a ha
  rcases List.mem_or_eq_of_mem_set ha with hmem | rfl
  · exact h a hmem
  · exact hv

theorem is_winnerN_encode {b : Board} (hlen : b.length = 9)
    (hc : ∀ c ∈ b, c < 3) (p : Nat) : is_winnerN (encode b) p = is_winner b p := by
  apply any_congr
  intro combo hcombo
  apply all_congr
  intro i hi
  have hi9 : i < 9 := by
    have hbound : ∀ combo ∈ winning_combos, ∀ i ∈ combo, i < 9 := by decide
    exact hbound combo hcombo i hi
  rw [getCell_encode b hc i (by omega)]

theorem availN_encode {b : Board} (hlen : b.length = 9)
    (hc : ∀ c ∈ b, c < 3) : availN (encode b) = get_available_moves b := by
  apply List.filter_congr
  intro i hi
  rw [getCell_encode b hc i (by rw [hlen]; exact List.mem_range.mp hi)]

theorem is_board_fullN_encode {b : Board} (hlen : b.length = 9)
    (hc : ∀ c ∈ b, c < 3) : is_board_fullN (encode b) = is_board_full b := by
  apply bool_eq_of_iff
  have hstep : is_board_fullN (encode b) = (List.range 9).all (fun i => b.getD i 0 != 0) := by
    apply all_congr
    intro i hi
    rw [getCell_encode b hc i (by rw [hlen]; exact List.mem_range.mp hi)]
  rw [hstep, full_iff_available_nil hlen]
  simp only [List.all_eq_true, List.mem_range, get_available_moves,
    List.filter_eq_nil_iff, bne_iff_ne, ne_eq, beq_iff_eq]

/-- A packed certificate pass transfers to the list-board certificate. -/
theorem certOKN_to_certOK :
    ∀ (f : Nat) (b : Board), b.length = 9 → (∀ c ∈ b, c < 3) →
      certOKN f (encode b) = true → certOK f b = true := by
  intro f
  induction f with
  | zero => intro b _ _ h; rw [certOKN] at h; cases h
  | succ f ih =>
    intro b hlen hcells h
    rw [certOKN] at h
    rw [certOK]
    rw [is_winnerN_encode hlen hcells human, is_winnerN_encode hlen hcells computer,
      is_board_fullN_encode hlen hcells, availN_encode hlen hcells] at h
    rcases hhw : is_winner b human with _ | _
    · rcases hcw : is_winner b computer with _ | _
      · rcases hfull : is_board_full b with _ | _
        · simp only [hhw, hcw, hfull, Bool.false_eq_true, if_false] at h ⊢
          apply List.all_eq_true.mpr
          intro m hm
          have hinner := List.all_eq_true.mp h m hm
          obtain ⟨hm9, hm0⟩ := mem_available_iff.mp hm
          have hkey : encode b + human * 3 ^ m = encode (b.set m human) :=
            (encode_set b m human (by omega) hm0).symm
          simp only [hkey] at hinner
          have hlen1 : (b.set m human).length = 9 := by simp [hlen]
          have hcells1 : ∀ c ∈ b.set m human, c < 3 := cells_lt_set hcells (by decide)
          rw [is_winnerN_encode hlen1 hcells1 human,
            is_board_fullN_encode hlen1 hcells1] at hinner
          rcases hw1 : is_winner (b.set m human) human with _ | _
          · rcases hf1 : is_board_full (b.set m human) with _ | _
            · simp only [hw1, hf1, Bool.false_eq_true, if_false] at hinner ⊢
              rcases hlk : certLookup (encode (b.set m human)) with _ | c
              · rw [hlk] at hinner; cases hinner
              · rw [hlk] at hinner
                simp only [] at hinner ⊢
                have hcond : (decide (c < 9) && (getCell (encode (b.set m human)) c == 0)) =
                    (decide (c < 9) && ((b.set m human).getD c 0 == 0)) := by
                  by_cases hc9 : c < 9
                  · rw [getCell_encode _ hcells1 c (by omega)]
                  · simp [hc9]
                rw [hcond] at hinner
                rcases hleg : (decide (c < 9) && ((b.set m human).getD c 0 == 0)) with _ | _
                · simp only [hleg, Bool.false_eq_true, if_false] at hinner
                · simp only [hleg, eq_self_iff_true, if_true] at hinner ⊢
                  have hlegs := hleg
                  simp only [Bool.and_eq_true, decide_eq_true_eq, beq_iff_eq] at hlegs
                  have hkey2 : encode (b.set m human) + computer * 3 ^ c =
                      encode ((b.set m human).set c computer) :=
                    (encode_set (b.set m human) c computer (by omega) hlegs.2).symm
                  rw [hkey2] at hinner
                  exact ih ((b.set m human).set c computer) (by simp [hlen])
                    (cells_lt_set hcells1 (by decide)) hinner
            · simp only [hw1, hf1, Bool.false_eq_true, if_false, if_true]
          · simp only [hw1, if_true] at hinner
            cases hinner
        · simp only [hhw, hcw, hfull, Bool.false_eq_true, if_false, if_true]
      · simp only [hhw, hcw, Bool.false_eq_true, if_false, if_true]
    · simp only [hhw, if_true] at h
      cases h

set_option maxRecDepth 8000 in
theorem certOKN_after_0 : certOKN 8 163 = true := by decide

set_option maxRecDepth 8000 in
theorem certOKN_after_1 : certOKN 8 5 = true := by decide

set_option maxRecDepth 8000 in
theorem certOKN_after_2 : certOKN 8 171 = true := by decide

set_option maxRecDepth 8000 in
theorem certOKN_after_3 : certOKN 8 29 = true := by decide

set_option maxRecDepth 8000 in
theorem certOKN_after_4 : certOKN 8 83 = true := by decide

set_option maxRecDepth 8000 in
theorem certOKN_after_5 : certOKN 8 261 = true := by decide

set_option maxRecDepth 8000 in
theorem certOKN_after_6 : certOKN 8 891 = true := by decide

set_option maxRecDepth 8000 in
theorem certOKN_after_7 : certOKN 8 2193 = true := by decide

set_option maxRecDepth 8000 in
theorem certOKN_after_8 : certOKN 8 6723 = true := by decide

/-- The packed certificate accepts the empty board (packed as `0`): one
unfolding step, the nine first-move subtrees each checked by their own
lemma. -/
theorem certOKN_start : certOKN 9 0 = true := by
  show certOKN (8 + 1) 0 = true
  rw [certOKN]
  rw [if_neg (by decide : ¬ is_winnerN 0 human = true)]
  rw [if_neg (by decide : ¬ is_winnerN 0 computer = true)]
  rw [if_neg (by decide : ¬ is_board_fullN 0 = true)]
  have havail : availN 0 = [0, 1, 2, 3, 4, 5, 6, 7, 8] := by decide
  rw [havail]
  apply List.all_eq_true.mpr
  intro m hm
  simp only [List.mem_cons, List.not_mem_nil, or_false] at hm
  rcases hm with rfl | rfl | rfl | rfl | rfl | rfl | rfl | rfl | rfl
  · show certOKN 8 163 = true
    exact certOKN_after_0
  · show certOKN 8 5 = true
    exact certOKN_after_1
  · show certOKN 8 171 = true
    exact certOKN_after_2
  · show certOKN 8 29 = true
    exact certOKN_after_3
  · show certOKN 8 83 = true
    exact certOKN_after_4
  · show certOKN 8 261 = true
    exact certOKN_after_5
  · show certOKN 8 891 = true
    exact certOKN_after_6
  · show certOKN 8 2193 = true
    exact certOKN_after_7
  · show certOKN 8 6723 = true
    exact certOKN_after_8

/-- The certificate accepts the empty board. -/
theorem certOK_start : certOK 9 initial_board = true :=
  certOKN_to_certOK 9 initial_board (by decide) (by decide)
    (by rw [show encode initial_board = 0 from rfl]; exact certOKN_start)

/-- C1: starting from the empty board with the human to move, for every
sequence of console entries (all legal human move sequences arise this way,
illegal entries being re-prompted), with the computer answering every turn
through `get_best_move`, the run never ends in `HumanWins`. -/
theorem C1_minimax_never_loses (ms : List Nat) :
    play_from initial_board ms ≠ Outcome.HumanWins :=
  play_from_safe ms initial_board (by decide) (by decide)
    (certOK_sound 9 initial_board (by decide) certOK_start)

end TicTacToe

namespace TicTacToe

/-! ### The search restores the board (C2) -/

theorem minimaxS_board :
    ∀ (f : Nat) (b : Board) (d : Nat) (im : Bool), (minimaxS f b d im).2 = b := by
  intro f
  induction f with
  | zero =>
    intro b d im
    rw [minimaxS.eq_def]
    simp only []
    split
    · rfl
    · split
      · rfl
      · split
        · rfl
        · rfl
  | succ f ih =>
    intro b d im
    have hrestore : ∀ (p : Nat) (im' : Bool) (comb : Int → Int → Int),
        ∀ (l : List Nat) (b0 : Board) (a : Int), (∀ m ∈ l, b0.getD m 0 = 0) →
        (l.foldl (fun acc move =>
          (comb (minimaxS f (acc.2.set move p) (d + 1) im').1 acc.1,
            (minimaxS f (acc.2.set move p) (d + 1) im').2.set move 0)) (a, b0)).2 = b0 := by
      intro p im' comb l
      induction l with
      | nil => intro b0 a _; rfl
      | cons h t iht =>
        intro b0 a hall
        rw [List.foldl_cons]
        have hstep : (minimaxS f (b0.set h p) (d + 1) im').2.set h 0 = b0 := by
          rw [ih]
          exact set_restore (hall h (List.mem_cons_self h t)) p
        rw [hstep]
        exact iht b0 _ (fun m hm => hall m (List.mem_cons_of_mem _ hm))
    rw [minimaxS.eq_def]
    simp only []
    split
    · rfl
    · split
      · rfl
      · split
        · rfl
        · cases im
          · simp only [Bool.false_eq_true, if_false]
            exact hrestore human true min (get_available_moves b) b posInf
              (fun m hm => (mem_available_iff.mp hm).2)
          · simp only [if_true]
            exact hrestore computer false max (get_available_moves b) b negInf
              (fun m hm => (mem_available_iff.mp hm).2)

theorem get_best_moveS_board (b : Board) : (get_best_moveS b).2 = b := by
  have hfold : ∀ (l : List Nat) (b0 : Board) (a : Int) (c0 : Option Nat),
      (∀ m ∈ l, b0.getD m 0 = 0) →
      ((l.foldl (fun acc move =>
        if (minimaxS 9 (acc.2.2.set move computer) 0 false).1 > acc.1 then
          ((minimaxS 9 (acc.2.2.set move computer) 0 false).1, some move,
            (minimaxS 9 (acc.2.2.set move computer) 0 false).2.set move 0)
        else
          (acc.1, acc.2.1,
            (minimaxS 9 (acc.2.2.set move computer) 0 false).2.set move 0))
        (a, c0, b0)).2.2) = b0 := by
    intro l
    induction l with
    | nil => intro b0 a c0 _; rfl
    | cons h t iht =>
      intro b0 a c0 hall
      rw [List.foldl_cons]
      have hstep : (minimaxS 9 (b0.set h computer) 0 false).2.set h 0 = b0 := by
        rw [minimaxS_board]
        exact set_restore (hall h (List.mem_cons_self h t)) computer
      split
      · rw [hstep]
        exact iht b0 _ _ (fun m hm => hall m (List.mem_cons_of_mem _ hm))
      · rw [hstep]
        exact iht b0 _ _ (fun m hm => hall m (List.mem_cons_of_mem _ hm))
  exact hfold (get_available_moves b) b negInf none
    (fun m hm => (mem_available_iff.mp hm).2)

/-- C2: the state-passing `minimax` and `get_best_move` hand back the board
exactly as it was before the call: every hypothetical move placed during the
search is undone on every path. -/
theorem C2_search_restores_board (f : Nat) (b : Board) (d : Nat) (im : Bool) :
    (minimaxS f b d im).2 = b ∧ (get_best_moveS b).2 = b :=
  ⟨minimaxS_board f b d im, get_best_moveS_board b⟩

end TicTacToe

namespace TicTacToe

/-! ### Terminal values and score range (C3) -/

/-- C3 counterexample: on a board where both players hold a winning line
(representable, though unreachable in play), `minimax` follows the Computer
branch and returns `10 - d`, not `-10 + d` as the claim requires whenever the
Human occupies a winning line. -/
theorem C3_counterexample :
    is_winner [2, 2, 2, 1, 1, 1, 0, 0, 0] human = true ∧
    minimax 9 [2, 2, 2, 1, 1, 1, 0, 0, 0] 0 true ≠ -10 + (0 : Int) := by
  constructor
  · decide
  · decide

/-- C3 (amended): `minimax` returns `10 - d` whenever the Computer occupies a
winning line; `-10 + d` whenever the Human occupies a winning line and the
Computer does not; `0` on a full board without a winner; and the value always
lies in `[-10, 10]` when `d + fuel ≤ 20`. -/
theorem C3_minimax_terminal_values (f d : Nat) (b : Board) (im : Bool)
    (hlen : b.length = 9) (hdf : d + f ≤ 20) :
    (is_winner b computer = true → minimax f b d im = 10 - (d : Int)) ∧
    (is_winner b computer = false → is_winner b human = true →
      minimax f b d im = -10 + (d : Int)) ∧
    (is_winner b computer = false → is_winner b human = false →
      is_board_full b = true → minimax f b d im = 0) ∧
    (-10 ≤ minimax f b d im ∧ minimax f b d im ≤ 10) :=
  ⟨fun h => minimax_of_computer_win h,
   fun hc hh => minimax_of_human_win hc hh,
   fun hc hh hf => minimax_of_draw hc hh hf,
   minimax_range f b d im hlen hdf⟩

theorem C3_witness :
    minimax 9 [2, 2, 2, 1, 1, 0, 0, 0, 0] 0 true = 10 - (0 : Int) ∧
    (-10 ≤ minimax 9 initial_board 0 false ∧ minimax 9 initial_board 0 false ≤ 10) :=
  ⟨(C3_minimax_terminal_values 9 0 [2, 2, 2, 1, 1, 0, 0, 0, 0] true
      (by decide) (by decide)).1 (by decide),
   (C3_minimax_terminal_values 9 0 initial_board false
      (by decide) (by decide)).2.2.2⟩

/-! ### First-argmax selection (C4) and the full-board case (C5) -/

/-- C4: on a non-full board `get_best_move` returns the available move with
the strictly greatest `minimax` score, ties keeping the lowest index, and the
selection is a pure function of the board (identical boards give identical
results). -/
theorem C4_get_best_move_first_argmax (b : Board) (hlen : b.length = 9)
    (hnf : is_board_full b = false) :
    ∃ c, get_best_move b = some c ∧ c ∈ get_available_moves b ∧
      (∀ m ∈ get_available_moves b,
        minimax 9 (b.set m computer) 0 false ≤ minimax 9 (b.set c computer) 0 false) ∧
      (∀ m ∈ get_available_moves b,
        minimax 9 (b.set m computer) 0 false = minimax 9 (b.set c computer) 0 false →
        c ≤ m) ∧
      (∀ b' : Board, b' = b → get_best_move b' = some c) := by
  obtain ⟨c, h1, h2, h3, h4⟩ := get_best_move_spec hlen hnf
  exact ⟨c, h1, h2, h3, h4, fun b' hb => hb ▸ h1⟩

theorem C4_witness :
    ∃ c, get_best_move initial_board = some c ∧ c ∈ get_available_moves initial_board ∧
      (∀ m ∈ get_available_moves initial_board,
        minimax 9 (initial_board.set m computer) 0 false ≤
          minimax 9 (initial_board.set c computer) 0 false) ∧
      (∀ m ∈ get_available_moves initial_board,
        minimax 9 (initial_board.set m computer) 0 false =
          minimax 9 (initial_board.set c computer) 0 false → c ≤ m) ∧
      (∀ b' : Board, b' = initial_board → get_best_move b' = some c) :=
  C4_get_best_move_first_argmax initial_board (by decide) (by decide)

/-- C5: on a full board the loop body of `get_best_move` never runs and the
function returns `none` (the embedding of the `NoMovesAvailable` failure):
no position is produced. -/
theorem C5_get_best_move_full_board (b : Board) (hlen : b.length = 9)
    (hfull : is_board_full b = true) : get_best_move b = none :=
  get_best_move_of_full hlen hfull

theorem C5_witness : get_best_move [1, 2, 1, 2, 1, 2, 2, 1, 2] = none :=
  C5_get_best_move_full_board [1, 2, 1, 2, 1, 2, 2, 1, 2] (by decide) (by decide)

end TicTacToe

namespace TicTacToe

/-- The score computed by the state-passing `minimaxS` agrees with the pure
`minimax`: the two translations of the Python function coincide. -/
theorem minimaxS_score :
    ∀ (f : Nat) (b : Board) (d : Nat) (im : Bool),
      (minimaxS f b d im).1 = minimax f b d im := by
  intro f
  induction f with
  | zero =>
    intro b d im
    rw [minimaxS.eq_def, minimax.eq_def]
    simp only []
    split
    · rfl
    · split
      · rfl
      · split
        · rfl
        · rfl
  | succ f ih =>
    intro b d im
    have hfold : ∀ (p : Nat) (im' : Bool) (comb : Int → Int → Int),
        ∀ (l : List Nat) (b0 : Board) (a : Int), (∀ m ∈ l, b0.getD m 0 = 0) →
        (l.foldl (fun acc move =>
          (comb (minimaxS f (acc.2.set move p) (d + 1) im').1 acc.1,
            (minimaxS f (acc.2.set move p) (d + 1) im').2.set move 0)) (a, b0)).1 =
        l.foldl (fun best move => comb (minimax f (b0.set move p) (d + 1) im') best) a := by
      intro p im' comb l
      induction l with
      | nil => intro b0 a _; rfl
      | cons h t iht =>
        intro b0 a hall
        rw [List.foldl_cons, List.foldl_cons]
        have hboard : (minimaxS f (b0.set h p) (d + 1) im').2.set h 0 = b0 := by
          rw [minimaxS_board]
          exact set_restore (hall h (List.mem_cons_self h t)) p
        rw [hboard, ih]
        exact iht b0 _ (fun m hm => hall m (List.mem_cons_of_mem _ hm))
    rw [minimaxS.eq_def, minimax.eq_def]
    simp only []
    split
    · rfl
    · split
      · rfl
      · split
        · rfl
        · cases im
          · simp only [Bool.false_eq_true, if_false]
            exact hfold human true min (get_available_moves b) b posInf
              (fun m hm => (mem_available_iff.mp hm).2)
          · simp only [if_true]
            exact hfold computer false max (get_available_moves b) b negInf
              (fun m hm => (mem_available_iff.mp hm).2)

end TicTacToe

namespace TicTacToe

/-! ### Episode allocation (C6, C7, C8, C10) and human input (C9) -/

/-- C6: the allocation performed by `computer_move` (`popleft` guarded by the
emptiness test) hands out the pool `[0,1,2,3]` strictly in FIFO order; the
fifth allocation finds the pool empty and yields no episode id. -/
theorem C6_episode_queue_fifo :
    allocate initial_state.episode_queue = (some 0, [1, 2, 3]) ∧
    allocate [1, 2, 3] = (some 1, [2, 3]) ∧
    allocate [2, 3] = (some 2, [3]) ∧
    allocate [3] = (some 3, []) ∧
    allocate [] = (none, []) :=
  ⟨rfl, rfl, rfl, rfl, rfl⟩

/-- C7: with an exhausted episode pool, `computer_move` reports `False` (the
`play` loop then breaks: early-stop terminal) and returns the state with
board, queue and move log untouched — minimax is never consulted. -/
theorem C7_exhausted_queue_stops (r : Bool) (s : GameState)
    (hq : s.episode_queue = []) : computer_move r s = (s, false) := by
  rw [computer_move, hq]
  split
  · rfl
  · rfl

theorem C7_witness :
    computer_move true ⟨initial_board, [], []⟩ = (⟨initial_board, [], []⟩, false) :=
  C7_exhausted_queue_stops true ⟨initial_board, [], []⟩ rfl

/-- C8: the state produced by `computer_move` does not depend on the outcome
of the replay; once the move is applied, the board cell and the appended
log entry stand whether the replay succeeded or failed. -/
theorem C8_committed_move_survives_replay (r r' : Bool) (s : GameState)
    (hlen : s.board.length = 9) :
    computer_move r s = computer_move r' s ∧
    (∀ e rest, s.episode_queue = e :: rest → is_board_full s.board = false →
      ∃ m, get_best_move s.board = some m ∧
        (computer_move r s).1.board = s.board.set m computer ∧
        (computer_move r s).1.computer_moves = s.computer_moves ++ [(m, e)] ∧
        (computer_move r s).2 = true) := by
  constructor
  · rfl
  · intro e rest hq hnf
    obtain ⟨m, hm, _, _, _⟩ := get_best_move_spec hlen hnf
    refine ⟨m, hm, ?_, ?_, ?_⟩
    all_goals
      simp [computer_move, hq, allocate, hm, available_ne_nil hlen hnf]

theorem C8_witness :
    ∃ m, get_best_move initial_state.board = some m ∧
      (computer_move false initial_state).1.board = initial_state.board.set m computer ∧
      (computer_move false initial_state).1.computer_moves =
        initial_state.computer_moves ++ [(m, 0)] ∧
      (computer_move false initial_state).2 = true :=
  (C8_committed_move_survives_replay false true initial_state (by decide)).2
    0 [1, 2, 3] rfl (by decide)

/-- C9: `player_move` accepts an entry exactly when the (0-based) position is
in range and the cell is empty; every accepted move is applied to that cell
for the human; `None` entries (`ValueError`) and illegal entries are skipped,
the board unchanged, and the loop continues with the next entry. -/
theorem C9_player_move_validation :
    (∀ (b : Board) (inputs : List (Option Int)) (b' : Board) (p : Nat),
      player_move b inputs = some (b', p) →
      p < 9 ∧ b.getD p 0 = 0 ∧ b' = b.set p human) ∧
    (∀ (b : Board) (n : Int) (rest : List (Option Int)),
      0 ≤ n - 1 → n - 1 ≤ 8 → b.getD (n - 1).toNat 0 = 0 →
      player_move b (some n :: rest) =
        some (b.set (n - 1).toNat human, (n - 1).toNat)) ∧
    (∀ (b : Board) (rest : List (Option Int)),
      player_move b (none :: rest) = player_move b rest) ∧
    (∀ (b : Board) (n : Int) (rest : List (Option Int)),
      ¬(0 ≤ n - 1 ∧ n - 1 ≤ 8 ∧ b.getD (n - 1).toNat 0 = 0) →
      player_move b (some n :: rest) = player_move b rest) := by
  refine ⟨?_, ?_, ?_, ?_⟩
  · intro b inputs
    induction inputs with
    | nil => intro b' p h; cases h
    | cons x rest ih =>
      intro b' p h
      match x with
      | none =>
        rw [player_move] at h
        exact ih b' p h
      | some n =>
        rw [player_move] at h
        by_cases hcond : 0 ≤ n - 1 ∧ n - 1 ≤ 8 ∧ (b.getD (n - 1).toNat 0 == 0) = true
        · rw [if_pos hcond] at h
          obtain ⟨h0, h8, hcell⟩ := hcond
          injection h with h
          injection h with hb hp
          subst hb; subst hp
          refine ⟨by omega, by simpa using hcell, rfl⟩
        · rw [if_neg hcond] at h
          exact ih b' p h
  · intro b n rest h0 h8 hcell
    rw [player_move]
    rw [if_pos ⟨h0, h8, by simpa using hcell⟩]
  · intro b rest
    rw [player_move]
  · intro b n rest hcond
    rw [player_move]
    rw [if_neg (by simpa using hcond)]

theorem C9_witness :
    player_move initial_board [some 0, none, some 5] =
      some (initial_board.set 4 human, 4) ∧
    player_move initial_board [none] = player_move initial_board [] := by
  constructor
  · have h1 := C9_player_move_validation.2.2.2 initial_board 0 [none, some 5]
      (by decide)
    have h2 := C9_player_move_validation.2.2.1 initial_board [some 5]
    have h3 := C9_player_move_validation.2.1 initial_board 5 [] (by decide) (by decide)
      (by decide)
    rw [h1, h2, h3]
    rfl
  · exact C9_player_move_validation.2.2.1 initial_board []

/-- One `computer_move` preserves the queue-plus-log count. -/
theorem computer_move_queue_log (r : Bool) (s : GameState)
    (h : s.episode_queue.length + s.computer_moves.length = 4) :
    (computer_move r s).1.episode_queue.length +
      (computer_move r s).1.computer_moves.length = 4 := by
  rw [computer_move]
  split
  · simpa using h
  · rcases hq : s.episode_queue with _ | ⟨e, rest⟩
    · simpa [allocate] using h
    · rcases hbm : get_best_move s.board with _ | m
      · simp only [allocate, hbm]
        simpa using h
      · simp only [allocate, hbm]
        rw [hq] at h
        simp at h ⊢
        omega

/-- C10: in every reachable state, remaining episode ids plus logged computer
moves always count to 4: each successful computer move pops exactly one id
and appends exactly one log pair, replay outcome notwithstanding. -/
theorem C10_queue_plus_log_is_four (s : GameState) (h : Reachable s) :
    s.episode_queue.length + s.computer_moves.length = 4 := by
  induction h with
  | init => rfl
  | human_step s inputs b' p hs hpm ih => exact ih
  | computer_step s r hs ih => exact computer_move_queue_log r s ih

theorem C10_witness :
    initial_state.episode_queue.length + initial_state.computer_moves.length = 4 :=
  C10_queue_plus_log_is_four initial_state Reachable.init

end TicTacToe
